import Mathlib

/-!
# burner.kiwi: the email providers (`email/mailgunmail`, `email/sendgridmail`)

A shallow embedding of the two `email.Provider` implementations of the
repository: `Start`, `RegisterRoute`, `DeleteExpiredRoutes` and the two
webhook handlers `mailgunIncoming` and `sendgridIncoming`.

Go strings are Lean strings, `int64` values are integers (with the wrap-around
of `time.Unix` made explicit), a `nil` interface or function value is `none`,
and every call into a collaborator (the store, the provider API, the clock,
the uuid generator, the HTML library, the response writer) is a field of an
explicit environment, so that the handlers are pure functions from the
environment to the effects they produce.
-/

namespace BurnerKiwi

/-! ## Errors (`github.com/pkg/errors`) -/

/-- An error value: a root error, or an error annotated by `errors.Wrap`. -/
inductive GoError where
  | new (msg : String)
  | withMessage (cause : GoError) (msg : String)
deriving DecidableEq, Repr

/-- The text of an error: `msg + ": " + cause.Error()`. -/
def GoError.Error : GoError → String
  | .new msg => msg
  | .withMessage cause msg => msg ++ ": " ++ cause.Error

/-- The root of a chain of wrapped errors (`errors.Cause`). -/
def GoError.Cause : GoError → GoError
  | .new msg => .new msg
  | .withMessage cause _ => cause.Cause

/-- The annotation of `errors.Wrap`: `nil` stays `nil`. -/
def errors.Wrap (err : Option GoError) (message : String) : Option GoError :=
  match err with
  | none => none
  | some e => some (.withMessage e message)

/-! ## The data package -/

/-- Modelled from the spec: the type `data.Inbox`, declared in the package
`data` (not among the sources); the fields are the ones the providers and the
test read and write. -/
structure Inbox where
  Address : String
  ID : String
  CreatedAt : Int
  TTL : Int
  MGRouteID : String
  FailedToCreate : Bool
deriving DecidableEq, Repr

/-- Modelled from the spec: the type `data.Message`, declared in the package
`data` (not among the sources); the fields are the ones the handlers fill. -/
structure Message where
  InboxID : String
  ID : String
  ReceivedAt : Int
  MGID : String
  Sender : String
  From : String
  Subject : String
  BodyHTML : String
  BodyPlain : String
  TTL : Int
deriving DecidableEq, Repr

/-- The zero value of `data.Message` (`var msg data.Message`). -/
def Message.zero : Message :=
  { InboxID := "", ID := "", ReceivedAt := 0, MGID := "", Sender := "", From := "",
    Subject := "", BodyHTML := "", BodyPlain := "", TTL := 0 }

/-- Modelled from the spec: the interface `data.Database`, declared in the
package `data` (not among the sources); only the two methods the handlers call.
`SaveNewMessage` returns the error, `none` for `nil`. -/
structure Database where
  GetInboxByID : String → Except GoError Inbox
  SaveNewMessage : Message → Option GoError

/-! ## Time (`time`) -/

/-- A `time.Time`: the seconds since January 1, year 1 (an `int64`) and the
nanoseconds within the second. -/
structure Time where
  sec : Int
  nsec : Nat
deriving DecidableEq, Repr

/-- The seconds from January 1, year 1 to January 1, 1970. -/
def unixToInternal : Int := 62135596800

/-- The value of an integer expression computed in `int64`. -/
def wrapInt64 (x : Int) : Int := (x + 2 ^ 63) % 2 ^ 64 - 2 ^ 63

/-- The call `time.Unix(sec, 0)`: the addition is an `int64` addition. -/
def time.Unix (sec : Int) : Time := { sec := wrapInt64 (sec + unixToInternal), nsec := 0 }

/-- The method `t.Unix()`. -/
def Time.Unix (t : Time) : Int := wrapInt64 (t.sec - unixToInternal)

/-- The method `t.Before(u)`. -/
def Time.Before (t u : Time) : Bool :=
  decide (t.sec < u.sec) || (decide (t.sec = u.sec) && decide (t.nsec < u.nsec))

/-! ## `strconv` -/

/-- The two failures of `strconv.ParseInt`. -/
inductive NumError where
  | ErrSyntax
  | ErrRange
deriving DecidableEq, Repr

/-- The digit loop of `strconv.ParseUint(s, 10, 64)`: every byte must be a
decimal digit, and the value must stay below `2^64`. -/
def parseUintLoop : List Char → Nat → Except NumError Nat
  | [], n => .ok n
  | c :: cs, n =>
    if '0' ≤ c ∧ c ≤ '9' then
      let n1 := n * 10 + (c.toNat - '0'.toNat)
      if n1 ≥ 2 ^ 64 then .error .ErrRange else parseUintLoop cs n1
    else .error .ErrSyntax

/-- The call `strconv.ParseUint(s, 10, 64)`. -/
def strconv.ParseUint (s : List Char) : Except NumError Nat :=
  match s with
  | [] => .error .ErrSyntax
  | _ => parseUintLoop s 0

/-- The call `strconv.ParseInt(s, 10, 64)`: an optional sign, decimal digits,
and a value that fits `int64`. -/
def strconv.ParseInt (s : String) : Except NumError Int :=
  match s.data with
  | [] => .error .ErrSyntax
  | c :: cs =>
    let neg := c == '-'
    let digits := if c == '+' ∨ c == '-' then cs else c :: cs
    match strconv.ParseUint digits with
    | .error e => .error e
    | .ok un =>
      let cutoff : Nat := 2 ^ 63
      if !neg ∧ un ≥ cutoff then .error .ErrRange
      else if neg ∧ un > cutoff then .error .ErrRange
      else .ok (if neg then - (un : Int) else (un : Int))

/-- The digits of a natural number, most significant first. -/
def itoaDigits : Nat → Nat → List Char → List Char
  | 0, _, acc => acc
  | fuel + 1, n, acc =>
    let acc1 := Char.ofNat ('0'.toNat + n % 10) :: acc
    if n / 10 = 0 then acc1 else itoaDigits fuel (n / 10) acc1

/-- The call `strconv.Itoa(i)`. -/
def strconv.Itoa (i : Int) : String :=
  match i with
  | .ofNat n => String.mk (itoaDigits (n + 1) n [])
  | .negSucc n => String.mk ('-' :: itoaDigits (n + 2) (n + 1) [])

deriving instance DecidableEq for Except

/-! ## HTTP (`net/http`, `github.com/gorilla/mux`) -/

/-- The parts of an `*http.Request` the handlers read: `r.FormValue(key)`
(the empty string for an absent key) and `mux.Vars(r)[key]` (likewise). -/
structure Request where
  form : String → String
  vars : String → String

/-- An `http.ResponseWriter`: the status line is fixed by the first
`WriteHeader`, or as 200 by the first `Write`. -/
structure ResponseWriter where
  wroteHeader : Bool
  status : Nat
  body : String
deriving DecidableEq, Repr

/-- The writer a handler is given: nothing written, status 200 unless set. -/
def ResponseWriter.fresh : ResponseWriter := { wroteHeader := false, status := 200, body := "" }

/-- The method `w.WriteHeader(code)`: a second call changes nothing. -/
def ResponseWriter.WriteHeader (w : ResponseWriter) (code : Nat) : ResponseWriter :=
  if w.wroteHeader then w else { w with wroteHeader := true, status := code }

/-- The method `w.Write(b)`, where `err` is the error the connection reports:
the header goes out as 200 if none was written, and the bytes are part of the
response when the write succeeds. -/
def ResponseWriter.Write (w : ResponseWriter) (b : String) (err : Option GoError) :
    ResponseWriter × Option GoError :=
  let w1 := w.WriteHeader 200
  match err with
  | none => ({ w1 with body := w1.body ++ b }, none)
  | some e => (w1, some e)

def StatusOK : Nat := 200
def StatusUnauthorized : Nat := 401
def StatusNotAcceptable : Nat := 406
def StatusInternalServerError : Nat := 500
def MethodPost : String := "POST"

/-- The two handlers a provider mounts. -/
inductive Handler where
  | mailgunIncoming
  | sendgridIncoming
deriving DecidableEq, Repr

/-- One registration `r.HandleFunc(path, f).Methods(methods...)`. -/
structure MuxRoute where
  path : String
  handler : Handler
  methods : List String
deriving DecidableEq, Repr

/-- A `*mux.Router`: its registrations, in order. -/
abbrev Router := List MuxRoute

/-! ## The Mailgun provider (`email/mailgunmail/mailgun.go`) -/

/-- The struct `mailgun.Route` of the client library. -/
structure Route where
  Priority : Int
  Description : String
  Expression : String
  Actions : List String
  CreatedAt : String
  ID : String
deriving DecidableEq, Repr

/-- The methods of the interface `mailgun.Mailgun` the provider calls. The
provider side is a state `σ` that the route calls read and change;
`VerifyWebhookRequest` is a local computation on the request. -/
structure Mailgun (σ : Type) where
  VerifyWebhookRequest : Request → Bool × Option GoError
  CreateRoute : σ → Route → σ × Route × Option GoError
  GetRoutes : σ → Int → Int → Int × List Route × Option GoError
  DeleteRoute : σ → String → σ × Option GoError

/-- The struct `MailgunMail`; a `nil` store or predicate is `none`. -/
structure MailgunMail (σ : Type) where
  websiteAddr : String
  mg : Mailgun σ
  db : Option Database
  isBlacklisted : Option (String → Bool)

/-- The method `MailgunMail.Start`. -/
def MailgunMail.Start {σ : Type} (m : MailgunMail σ) (websiteAddr : String) (db : Database)
    (r : Router) (isBlackisted : String → Bool) : MailgunMail σ × Router × Option GoError :=
  let m1 := { m with db := some db }
  let m2 := { m1 with isBlacklisted := some isBlackisted }
  let m3 := { m2 with websiteAddr := websiteAddr }
  let r1 := r ++ [{ path := "/mg/incoming/\x7binboxID\x7d/", handler := .mailgunIncoming,
                    methods := [MethodPost] }]
  (m3, r1, none)

/-- What a `RegisterRoute` call leaves behind: the returned pair, the requests
sent to the provider, and the provider state. -/
structure Registered (σ ρ : Type) where
  routeID : String
  err : Option GoError
  sent : List ρ
  provider : σ

/-- The route `MailgunMail.RegisterRoute` asks the provider to create (the
argument of its `CreateRoute` call). -/
def MailgunMail.routeRequest {σ : Type} (m : MailgunMail σ) (i : Inbox) : Route :=
  let routeAddr := m.websiteAddr ++ "/mg/incoming/" ++ i.ID ++ "/"
  { Priority := 1
    Description := strconv.Itoa i.TTL
    Expression := "match_recipient(\"" ++ i.Address ++ "\")"
    Actions := ["forward(\"" ++ routeAddr ++ "\")", "store()", "stop()"]
    CreatedAt := ""
    ID := "" }

/-- The method `MailgunMail.RegisterRoute`. -/
def MailgunMail.RegisterRoute {σ : Type} (m : MailgunMail σ) (st : σ) (i : Inbox) :
    Registered σ Route :=
  match m.mg.CreateRoute st (m.routeRequest i) with
  | (st1, route, err) =>
    { routeID := route.ID
      err := errors.Wrap err "createRoute: failed to create mailgun route"
      sent := [m.routeRequest i]
      provider := st1 }

/-- What one run of the sweep leaves behind: the ids `DeleteRoute` was called
with, in order, the log lines, and the provider state. -/
structure Swept (σ : Type) where
  deleted : List String
  logs : List String
  provider : σ

/-- The loop of `DeleteExpiredRoutes` from the `k`-th route on; `now k` is the
instant `time.Now()` returns while the `k`-th route is looked at. -/
def deleteExpiredLoop {σ : Type} (mg : Mailgun σ) (now : Nat → Time) :
    Nat → List Route → Swept σ → Swept σ
  | _, [], acc => acc
  | k, r :: rs, acc =>
    match strconv.ParseInt r.Description with
    | .error _ =>
      deleteExpiredLoop mg now (k + 1) rs
        { acc with logs := acc.logs ++
            ["Mailgun.DeleteExpiredRoutes: failed to parse route description as int: id=" ++ r.ID ++ "\n"] }
    | .ok tInt =>
      let t := time.Unix tInt
      -- if our route's ttl (expiration time) is before now... then delete it
      if t.Before (now k) then
        match mg.DeleteRoute acc.provider r.ID with
        | (st1, some _) =>
          deleteExpiredLoop mg now (k + 1) rs
            { deleted := acc.deleted ++ [r.ID]
              logs := acc.logs ++
                ["Mailgun.DeleteExpiredRoutes: failed to delete route: id=" ++ r.ID ++ "\n"]
              provider := st1 }
        | (st1, none) =>
          deleteExpiredLoop mg now (k + 1) rs
            { acc with deleted := acc.deleted ++ [r.ID], provider := st1 }
      else deleteExpiredLoop mg now (k + 1) rs acc

/-- The method `MailgunMail.DeleteExpiredRoutes`. -/
def MailgunMail.DeleteExpiredRoutes {σ : Type} (m : MailgunMail σ) (st : σ) (now : Nat → Time) :
    Swept σ × Option GoError :=
  match m.mg.GetRoutes st 1000 0 with
  | (_, _, some err) =>
    ({ deleted := [], logs := [], provider := st },
      errors.Wrap (some err) "Mailgun.DeleteExpiredRoutes: failed to get routes")
  | (_, rs, none) =>
    (deleteExpiredLoop m.mg now 0 rs { deleted := [], logs := [], provider := st }, none)

/-! ## The collaborators of a webhook handler -/

/-- The three calls a handler makes into `goquery`, over its document type `δ`:
`goquery.NewDocumentFromReader(strings.NewReader(s))`, the loop
`doc.Find(sel).Each(func(..) { s.SetAttr(name, val) })`, and `doc.Html()`. -/
structure HTMLLib (δ : Type) where
  NewDocumentFromReader : String → Except GoError δ
  FindEachSetAttr : δ → String → String → String → δ
  Html : δ → Except GoError String

/-- The JSON object a Sendgrid webhook carries in its `envelope` field. -/
structure Envelope where
  To : List String
  From : String
deriving DecidableEq, Repr

/-- The struct `mail.Address`. -/
structure MailAddress where
  Name : String
  Address : String
deriving DecidableEq, Repr

/-- What the world answers during one request: the HTML library, the result of
`uuid.NewRandom()` (as the string of the id), the instant `time.Now()`, the
error of the handler's `w.Write`, and for Sendgrid the results of
`json.Unmarshal` into the zero envelope (the envelope as left behind, and the
error) and of `mail.ParseAddress`. -/
structure Env (δ : Type) where
  html : HTMLLib δ
  NewRandom : Except GoError String
  Now : Time
  writeErr : Option GoError
  UnmarshalEnvelope : String → Envelope × Option GoError
  ParseAddress : String → Except GoError MailAddress

/-- What one run of a handler has done: the response, the messages given to
`SaveNewMessage`, the ids `GetInboxByID` was asked for, the senders the
blacklist predicate was asked about, the two `IncomingEmails` counters, the log
lines, and whether the run ended in a nil dereference. -/
structure Effects where
  w : ResponseWriter
  saved : List Message
  lookups : List String
  screened : List String
  accepted : Nat
  rejected : Nat
  logs : List String
  panicked : Bool
deriving DecidableEq, Repr

/-- The state at the entry of a handler. -/
def Effects.start : Effects :=
  { w := ResponseWriter.fresh, saved := [], lookups := [], screened := [], accepted := 0,
    rejected := 0, logs := [], panicked := false }

/-- A log line and a status, then return. -/
def Effects.fail (e : Effects) (line : String) (code : Nat) : Effects :=
  { e with logs := e.logs ++ [line], w := e.w.WriteHeader code }

/-- The step of the HTML block that failed. -/
inductive HTMLStep where
  | create
  | get
deriving DecidableEq, Repr

/-- The body of the `if strings.Compare(html, "") != 0` block of both handlers:
parse, set `target="_blank"` on every `a`, serialise. -/
def openLinksInNewTab {δ : Type} (lib : HTMLLib δ) (html : String) :
    Except (HTMLStep × GoError) String :=
  match lib.NewDocumentFromReader html with
  | .error err => .error (.create, err)
  | .ok doc =>
    -- Find all a tags and add a target="_blank" attr to them
    let doc1 := lib.FindEachSetAttr doc "a" "target" "_blank"
    match lib.Html doc1 with
    | .error err => .error (.get, err)
    | .ok modifiedHTML => .ok modifiedHTML

/-- The common tail of both handlers, from the HTML block on; `name` is the
prefix of the handler's log lines. -/
def storeAndReply {δ : Type} (name : String) (db : Database) (env : Env δ) (id : String)
    (html : String) (msg : Message) (e : Effects) : Effects :=
  let processed : Except (HTMLStep × GoError) Message :=
    if html ≠ "" then
      match openLinksInNewTab env.html html with
      | .error x => .error x
      | .ok modifiedHTML => .ok { msg with BodyHTML := modifiedHTML }
    else .ok msg
  match processed with
  | .error (.create, err) =>
    e.fail (name ++ ": failed to create goquery doc: " ++ err.Error) StatusInternalServerError
  | .error (.get, err) =>
    e.fail (name ++ ": failed to get html doc: " ++ err.Error) StatusInternalServerError
  | .ok msg1 =>
    let e1 := { e with saved := e.saved ++ [msg1] }
    let e2 :=
      match db.SaveNewMessage msg1 with
      | some err =>
        { e1 with logs := e1.logs ++ [name ++ ": failed to save message to db: " ++ err.Error] }
      | none => e1
    match e2.w.Write id env.writeErr with
    | (w1, some err) =>
      { e2 with w := w1 }.fail (name ++ ": failed to write response: " ++ err.Error)
        StatusInternalServerError
    | (w1, none) => { e2 with w := w1, accepted := e2.accepted + 1 }

/-- The handler `MailgunMail.mailgunIncoming`. -/
def MailgunMail.mailgunIncoming {σ δ : Type} (m : MailgunMail σ) (env : Env δ) (r : Request) :
    Effects :=
  let e := Effects.start
  match m.mg.VerifyWebhookRequest r with
  | (_, some err) =>
    e.fail ("MailgunIncoming: failed to verify request: " ++ err.Error) StatusUnauthorized
  | (ver, none) =>
    if !ver then e.fail "MailgunIncoming: invalid request" StatusUnauthorized
    else
      match m.isBlacklisted with
      | none => { e with panicked := true }
      | some isBlacklisted =>
        let e1 := { e with screened := e.screened ++ [r.form "sender"] }
        if isBlacklisted (r.form "sender") then
          { e1 with w := e1.w.WriteHeader StatusNotAcceptable, rejected := e1.rejected + 1 }
        else
          let id := r.vars "inboxID"
          match m.db with
          | none => { e1 with panicked := true }
          | some db =>
            let e2 := { e1 with lookups := e1.lookups ++ [id] }
            match db.GetInboxByID id with
            | .error err =>
              e2.fail ("MailgunIncoming: failed to get inbox: " ++ err.Error)
                StatusInternalServerError
            | .ok i =>
              let msg := { Message.zero with InboxID := i.ID, TTL := i.TTL }
              match env.NewRandom with
              | .error err =>
                e2.fail ("MailgunIncoming: failed to generate uuid for inbox: " ++ err.Error)
                  StatusInternalServerError
              | .ok mID =>
                let msg1 :=
                  { msg with
                    ID := mID
                    ReceivedAt := env.Now.Unix
                    MGID := r.form "message-id"
                    Sender := r.form "sender"
                    From := r.form "from"
                    Subject := r.form "subject"
                    BodyPlain := r.form "body-plain" }
                storeAndReply "MailgunIncoming" db env id (r.form "body-html") msg1 e2

/-! ## The Sendgrid provider (`email/sendgridmail`) -/

set_option linter.unusedVariables false

/-- The struct `Sendgrid` of `client.go`. -/
structure Sendgrid where
  domain : String
  key : String
  host : String
deriving DecidableEq, Repr

/-- The constructor `NewSendgrid`. -/
def NewSendgrid (domain key : String) : Sendgrid :=
  { domain := domain, key := key, host := "https://api.sendgrid.com" }

/-- The struct `ParseSetting` of `client.go`. -/
structure ParseSetting where
  Hostname : String
  URL : String
  SpamCheck : Bool
  SendRaw : Bool
deriving DecidableEq, Repr

/-- A `rest.Request` as `Sendgrid.getRequest` builds it, then given a body: the
three arguments of `sendgrid.GetRequest`, the method, and the value that
`json.Marshal` encodes into the body (`none` before a body is set). -/
structure RestRequest where
  key : String
  endpoint : String
  host : String
  Method : String
  Body : Option ParseSetting
deriving DecidableEq, Repr

/-- A `rest.Response`. -/
structure RestResponse where
  StatusCode : Int
  Body : String
deriving DecidableEq, Repr

/-- The network side of the client over a provider state `σ`: `sendgrid.API`,
and `json.Unmarshal` of a response body into a `*ParseSetting` (which is `nil`
for the JSON `null`). -/
structure SendgridNet (σ : Type) where
  API : σ → RestRequest → σ × Except GoError RestResponse
  UnmarshalParseSetting : String → Except GoError (Option ParseSetting)

/-- The method `Sendgrid.getRequest`. -/
def Sendgrid.getRequest (s : Sendgrid) (endpoint : String) (method : String) : RestRequest :=
  { key := s.key, endpoint := endpoint, host := s.host, Method := method, Body := none }

/-- The method `Sendgrid.CreateParseSetting`; the argument `url` is not used
by the body of the method. -/
def Sendgrid.CreateParseSetting {σ : Type} (s : Sendgrid) (net : SendgridNet σ) (st : σ)
    (url : String) : σ × RestRequest × Except GoError (Option ParseSetting) :=
  let request := s.getRequest "/user/webhooks/parse/settings" "POST"
  let requestBody : ParseSetting :=
    { Hostname := s.domain, URL := "", SpamCheck := false, SendRaw := false }
  let request1 := { request with Body := some requestBody }
  match net.API st request1 with
  | (st1, .error err) =>
    (st1, request1,
      .error (.withMessage err "Sendgrid.CreateParseSetting: failed to create a parse setting"))
  | (st1, .ok response) =>
    match net.UnmarshalParseSetting response.Body with
    | .error err =>
      (st1, request1,
        .error (.withMessage err "Sendgrid.CreateParseSetting: failed to unmarshal json response"))
    | .ok responseBody => (st1, request1, .ok responseBody)

/-- The struct `SendgridMail`; a `nil` store or predicate is `none`. -/
structure SendgridMail where
  websiteAddr : String
  sg : Sendgrid
  db : Option Database
  isBlacklisted : Option (String → Bool)

/-- The constructor `NewSendgridProvider`. -/
def NewSendgridProvider (domain key : String) : SendgridMail :=
  { websiteAddr := "", sg := NewSendgrid domain key, db := none, isBlacklisted := none }

/-- The method `SendgridMail.Start`; the argument `isBlackisted` is not used by
the body of the method. -/
def SendgridMail.Start (s : SendgridMail) (websiteAddr : String) (db : Database) (r : Router)
    (isBlackisted : String → Bool) : SendgridMail × Router × Option GoError :=
  let s1 := { s with websiteAddr := websiteAddr }
  let s2 := { s1 with db := some db }
  let r1 := r ++ [{ path := "/sg/incoming/\x7binboxID\x7d", handler := .sendgridIncoming,
                    methods := [MethodPost] }]
  (s2, r1, none)

/-- The text `fmt.Println` prints for a `*ParseSetting`. -/
def printlnParseSetting : Option ParseSetting → String
  | none => "<nil>\n"
  | some p =>
    "&\x7b" ++ p.Hostname ++ " " ++ p.URL ++ " " ++ toString p.SpamCheck ++ " "
      ++ toString p.SendRaw ++ "\x7d\n"

/-- What a Sendgrid `RegisterRoute` call leaves behind: the returned pair, the
request sent, the line printed, and the provider state. -/
structure SendgridRegistered (σ : Type) where
  routeID : String
  err : Option GoError
  sent : List RestRequest
  stdout : List String
  provider : σ

/-- The address `SendgridMail.RegisterRoute` builds and gives to
`CreateParseSetting` (its local `routeAddr`). -/
def SendgridMail.routeAddr (s : SendgridMail) (i : Inbox) : String :=
  s.websiteAddr ++ "/sg/incoming" ++ i.ID ++ "/"

/-- The method `SendgridMail.RegisterRoute`. -/
def SendgridMail.RegisterRoute {σ : Type} (s : SendgridMail) (net : SendgridNet σ) (st : σ)
    (i : Inbox) : SendgridRegistered σ :=
  match s.sg.CreateParseSetting net st (s.routeAddr i) with
  | (st1, request, .error err) =>
    { routeID := ""
      err := errors.Wrap (some err) "createRoute: failed to create sendgrid parse setting"
      sent := [request]
      stdout := [printlnParseSetting none]
      provider := st1 }
  | (st1, request, .ok route) =>
    { routeID := ""
      err := errors.Wrap none "createRoute: failed to create sendgrid parse setting"
      sent := [request]
      stdout := [printlnParseSetting route]
      provider := st1 }

/-- The method `SendgridMail.DeleteExpiredRoutes`: nothing is done. -/
def SendgridMail.DeleteExpiredRoutes (_s : SendgridMail) : Option GoError := none

/-- The handler `SendgridMail.sendgridIncoming`. -/
def SendgridMail.sendgridIncoming {δ : Type} (s : SendgridMail) (env : Env δ) (r : Request) :
    Effects :=
  let e := Effects.start
  match env.UnmarshalEnvelope (r.form "envelope") with
  | (_, some err) =>
    e.fail ("SendgridIncoming: failed to unmarshal envelope data: " ++ err.Error)
      StatusInternalServerError
  | (envelope, none) =>
    match s.isBlacklisted with
    | none => { e with panicked := true }
    | some isBlacklisted =>
      let e1 := { e with screened := e.screened ++ [envelope.From] }
      if isBlacklisted envelope.From then
        { e1 with w := e1.w.WriteHeader StatusNotAcceptable, rejected := e1.rejected + 1 }
      else
        let id := r.vars "inboxID"
        match s.db with
        | none => { e1 with panicked := true }
        | some db =>
          let e2 := { e1 with lookups := e1.lookups ++ [id] }
          match db.GetInboxByID id with
          | .error err =>
            e2.fail ("SendgridIncoming: failed to get inbox: " ++ err.Error)
              StatusInternalServerError
          | .ok i =>
            let msg := { Message.zero with InboxID := i.ID, TTL := i.TTL }
            match env.NewRandom with
            | .error err =>
              e2.fail ("SendgridIncoming: failed to generate uuid for inbox: " ++ err.Error)
                StatusInternalServerError
            | .ok mID =>
              let msg1 := { msg with ID := mID, ReceivedAt := env.Now.Unix, Sender := envelope.From }
              match env.ParseAddress (r.form "from") with
              | .error err =>
                e2.fail ("SendgridIncoming: failed to parse from email address: " ++ err.Error)
                  StatusInternalServerError
              | .ok sender =>
                let msg2 :=
                  { msg1 with
                    From := sender.Address
                    Subject := r.form "subject"
                    BodyPlain := r.form "text" }
                storeAndReply "SendgridIncoming" db env id (r.form "html") msg2 e2

/-! ## The HTML library (`golang.org/x/net/html`, `goquery`)

The handlers are stated over any `HTMLLib`. The instance below is used to run
them on concrete bodies: the node tree and `Render` follow the library, and
`Parse` is modelled on a small class of documents, outside of which the model
gives no answer. -/

/-- The type `html.NodeType` (comment, doctype and raw nodes are not
modelled). -/
inductive NodeType where
  | ErrorNode
  | TextNode
  | DocumentNode
  | ElementNode
deriving DecidableEq, Repr

/-- The struct `html.Attribute`. -/
structure Attribute where
  Namespace : String
  Key : String
  Val : String
deriving DecidableEq, Repr

/-- A `*html.Node` with what hangs below and after it: `nil`, or a node with
its `FirstChild` and its `NextSibling`. -/
inductive Node where
  | nil
  | node (kind : NodeType) (Data : String) (Attr : List Attribute) (FirstChild NextSibling : Node)
deriving DecidableEq, Repr

/-- The function `escape` of `render.go`, on one character. -/
def escapeChar (c : Char) : List Char :=
  if c = '&' then "&amp;".data
  else if c = '\'' then "&#39;".data
  else if c = '<' then "&lt;".data
  else if c = '>' then "&gt;".data
  else if c = '"' then "&#34;".data
  else if c = '\r' then "&#13;".data
  else [c]

/-- The function `escape` of `render.go`. -/
def escape (s : String) : String := String.mk (s.data.flatMap escapeChar)

/-- The table `voidElements` of `render.go`. -/
def voidElements : List String :=
  ["area", "base", "br", "col", "embed", "hr", "img", "input", "keygen", "link", "meta",
   "param", "source", "track", "wbr"]

/-- The elements whose text children `render1` writes unescaped. -/
def rawTextElements : List String :=
  ["iframe", "noembed", "noframes", "noscript", "plaintext", "script", "style", "xmp"]

/-- The attributes of an opening tag, as `render1` writes them. -/
def renderAttrs : List Attribute → String
  | [] => ""
  | a :: rest =>
    " " ++ (if a.Namespace ≠ "" then a.Namespace ++ ":" else "") ++ a.Key ++ "=\""
      ++ escape a.Val ++ "\"" ++ renderAttrs rest

/-- Whether the first child is a text node that starts with a newline. -/
def startsWithNewline : Node → Bool
  | .node .TextNode d _ _ _ => d.data.head? = some '\n'
  | _ => false

/-- What `render1` has done when it returns: written `out` and returned nil,
written `out` and returned `plaintextAbort`, or returned an error. -/
inductive Rendered where
  | done (out : String)
  | aborted (out : String)
  | failed
deriving DecidableEq, Repr

/-- The function `render1` of `render.go` on one node, given what the loop over
its children has done (`inner`); `raw` says that the parent writes its text
children unescaped. -/
def renderNode (raw : Bool) (t : NodeType) (d : String) (attrs : List Attribute) (fc : Node)
    (inner : Rendered) : Rendered :=
  match t with
  | .ErrorNode => .failed
  | .TextNode => .done (if raw then d else escape d)
  | .DocumentNode => inner
  | .ElementNode =>
    let opening := "<" ++ d ++ renderAttrs attrs
    if d ∈ voidElements then
      match fc with
      | .nil => .done (opening ++ "/>")
      | _ => .failed
    else
      let newline :=
        if startsWithNewline fc ∧ d ∈ ["pre", "listing", "textarea"] then "\n" else ""
      match inner with
      | .failed => .failed
      | .aborted out => .aborted (opening ++ ">" ++ newline ++ out)
      | .done out =>
        if d = "plaintext" then .aborted (opening ++ ">" ++ newline ++ out)
        else .done (opening ++ ">" ++ newline ++ out ++ "</" ++ d ++ ">")

/-- The loop `for c := n.FirstChild; c != nil; c = c.NextSibling` of `render1`
from the child `c` on: each child is rendered in turn, and the first one that
does not return nil ends the loop. -/
def renderFrom (raw : Bool) : Node → Rendered
  | .nil => .done ""
  | .node t d attrs fc ns =>
    let inner :=
      renderFrom (decide (t = .ElementNode ∧ d ∈ rawTextElements)) fc
    match renderNode raw t d attrs fc inner with
    | .done a =>
      match renderFrom raw ns with
      | .done b => .done (a ++ b)
      | .aborted b => .aborted (a ++ b)
      | .failed => .failed
    | other => other

/-- The loop of `Selection.Html` from the child `c` of the root on: each child
goes through `html.Render`, which returns nil also after a `plaintextAbort`. -/
def htmlFrom : Node → Option String
  | .nil => some ""
  | .node t d attrs fc ns =>
    let inner :=
      renderFrom (decide (t = .ElementNode ∧ d ∈ rawTextElements)) fc
    match renderNode false t d attrs fc inner, htmlFrom ns with
    | .done a, some b => some (a ++ b)
    | .aborted a, some b => some (a ++ b)
    | _, _ => none

/-- The function `Selection.SetAttr` of goquery on the attributes of one node:
the first attribute with that key gets the value, and when there is none the
attribute is appended. -/
def setAttr (attrName val : String) : List Attribute → List Attribute
  | [] => [{ Namespace := "", Key := attrName, Val := val }]
  | a :: rest =>
    if a.Key = attrName then { a with Val := val } :: rest else a :: setAttr attrName val rest

/-- The loop `Find(tag).Each(func(..) { s.SetAttr(attrName, val) })` for a
selector that is a tag name, on a node and everything below and after it. -/
def setAttrOnTag (tag attrName val : String) : Node → Node
  | .nil => .nil
  | .node t d attrs fc ns =>
    let attrs1 := if t = .ElementNode ∧ d = tag then setAttr attrName val attrs else attrs
    .node t d attrs1 (setAttrOnTag tag attrName val fc) (setAttrOnTag tag attrName val ns)

/-- The method `Selection.Html` on a document: the rendering of the children
of the root. -/
def Node.Html : Node → Except GoError String
  | .nil => .ok ""
  | .node _ _ _ fc _ =>
    match htmlFrom fc with
    | some out => .ok out
    | none => .error (.new "html: cannot render")

/-- The tokens of the modelled class of documents. -/
inductive Token where
  | startTag (name : String) (attrs : List Attribute)
  | endTag (name : String)
  | text (s : String)
deriving DecidableEq, Repr

/-- A lower-case letter, a digit or a hyphen. -/
def isNameChar (c : Char) : Bool := c.isLower || c.isDigit || c = '-'

/-- A name of the modelled class: lower case, starting with a letter. -/
def validName (cs : List Char) : Bool :=
  match cs with
  | [] => false
  | c :: _ => c.isLower && cs.all isNameChar

/-- A text or attribute value of the modelled class: no character reference,
no carriage return and no NUL, which the tokenizer would rewrite. -/
def plainChars (cs : List Char) : Bool :=
  cs.all fun c => c ≠ '&' && c ≠ '\r' && c ≠ Char.ofNat 0

/-- The attributes of a start tag up to its `>`: each one is a space, a name,
`="`, a value and `"`, and no name comes twice. -/
def lexAttrs : Nat → List Char → Option (List Attribute × List Char)
  | 0, _ => none
  | _ + 1, '>' :: rest => some ([], rest)
  | fuel + 1, ' ' :: rest =>
    let (key, r2) := rest.span isNameChar
    match r2 with
    | '=' :: '"' :: r3 =>
      let (val, r4) := r3.span (fun c => c ≠ '"')
      match r4 with
      | '"' :: r5 =>
        if validName key ∧ plainChars val then
          match lexAttrs fuel r5 with
          | some (attrs, r6) =>
            if (String.mk key) ∈ attrs.map Attribute.Key then none
            else some ({ Namespace := "", Key := String.mk key, Val := String.mk val } :: attrs, r6)
          | none => none
        else none
      | _ => none
    | _ => none
  | _ + 1, _ => none

/-- The tokens of a document of the modelled class; `none` outside of it. -/
def tokenize : Nat → List Char → Option (List Token)
  | 0, _ => none
  | _ + 1, [] => some []
  | fuel + 1, '<' :: '/' :: cs =>
    let (name, rest) := cs.span isNameChar
    match rest with
    | '>' :: rest1 =>
      if validName name then (tokenize fuel rest1).map (Token.endTag (String.mk name) :: ·)
      else none
    | _ => none
  | fuel + 1, '<' :: cs =>
    let (name, rest) := cs.span isNameChar
    if validName name then
      match lexAttrs (rest.length + 1) rest with
      | some (attrs, rest1) =>
        (tokenize fuel rest1).map (Token.startTag (String.mk name) attrs :: ·)
      | none => none
    else none
  | fuel + 1, c :: cs =>
    let (txt, rest) := (c :: cs).span (fun x => x ≠ '<')
    if plainChars txt then (tokenize fuel rest).map (Token.text (String.mk txt) :: ·) else none

/-- The elements of the modelled class. In the "in body" insertion mode a
`div` or a `span` is inserted as a child of the current node and its end tag
pops it, and so is an `a` that is not inside another `a`. -/
def bodyTags : List String := ["a", "div", "span"]

/-- The tree construction for properly nested body content: the nodes up to
the first unmatched end tag, and the tokens from there. `inA` says that an `a`
is open. -/
def parseContent : Nat → Bool → List Token → Option (Node × List Token)
  | 0, _, _ => none
  | _ + 1, _, [] => some (.nil, [])
  | _ + 1, _, .endTag n :: rest => some (.nil, .endTag n :: rest)
  | fuel + 1, inA, .text s :: rest =>
    match parseContent fuel inA rest with
    | some (sib, rest1) => some (.node .TextNode s [] .nil sib, rest1)
    | none => none
  | fuel + 1, inA, .startTag n attrs :: rest =>
    if n ∉ bodyTags ∨ (n = "a" ∧ inA = true) then none
    else
      match parseContent fuel (inA || decide (n = "a")) rest with
      | some (kids, .endTag n1 :: rest2) =>
        if n1 = n then
          match parseContent fuel inA rest2 with
          | some (sib, rest3) => some (.node .ElementNode n attrs kids sib, rest3)
          | none => none
        else none
      | _ => none

/-- Whether a token list starts with text that starts with white space. -/
def startsWithSpace : List Token → Bool
  | .text s :: _ =>
    match s.data with
    | c :: _ => c = ' ' || c = '\n' || c = '\t' || c = '\r' || c = Char.ofNat 12
    | [] => false
  | _ => false

/-- The document `Parse` builds around body content: `html` with an empty
`head` and `body`. -/
def wrapBody (content : Node) : Node :=
  .node .DocumentNode "" []
    (.node .ElementNode "html" []
      (.node .ElementNode "head" [] .nil
        (.node .ElementNode "body" [] content .nil))
      .nil)
    .nil

/-- The function `html.Parse` on the modelled class of documents: properly
nested `a`, `div` and `span` elements with double-quoted attributes and text,
either alone (not starting with white space) or inside
`<html><body>` ... `</body></html>`. In both cases the parser builds
`html`, `head` and `body` itself when the tags are absent. `none` for every
other input. -/
def parseModelled (s : String) : Option Node :=
  match tokenize (s.data.length + 1) s.data with
  | none => none
  | some toks =>
    let n := toks.length + 1
    match toks with
    | .startTag "html" [] :: .startTag "body" [] :: rest =>
      match parseContent n false rest with
      | some (content, [.endTag "body", .endTag "html"]) => some (wrapBody content)
      | _ => none
    | _ =>
      if startsWithSpace toks then none
      else
        match parseContent n false toks with
        | some (content, []) => some (wrapBody content)
        | _ => none

/-- The HTML library on the modelled class of documents. -/
def goquery : HTMLLib Node :=
  { NewDocumentFromReader := fun s =>
      match parseModelled s with
      | some doc => .ok doc
      | none => .error (.new "outside the modelled class of documents")
    FindEachSetAttr := fun doc sel attrName val =>
      match doc with
      | .nil => .nil
      | .node t d attrs fc ns => .node t d attrs (setAttrOnTag sel attrName val fc) ns
    Html := Node.Html }

/-! ## Example stores, providers and requests

The values below follow the repository's tests: an in-memory store holding one
inbox, a stub Mailgun client whose state is the list of its routes, and the
form posts of the tests. -/

/-- An inbox as the tests save it. -/
def exampleInbox (id address : String) : Inbox :=
  { Address := address, ID := id, CreatedAt := 1700000000, TTL := 1700003600, MGRouteID := "",
    FailedToCreate := false }

/-- A store that holds the given inboxes; `saveErr` is what `SaveNewMessage`
answers. -/
def storeOf (inboxes : List Inbox) (saveErr : Option GoError) : Database :=
  { GetInboxByID := fun id =>
      match inboxes.find? (fun i => i.ID = id) with
      | some i => .ok i
      | none => .error (.new "failed to find inbox")
    SaveNewMessage := fun _ => saveErr }

/-- A stub Mailgun client over the list of its routes: `verify` is the answer
of `VerifyWebhookRequest`, a created route gets the id `newID`, and deleting
removes the routes with the id (an error when there is none). -/
def stubMailgun (verify : Bool) (newID : String) : Mailgun (List Route) :=
  { VerifyWebhookRequest := fun _ => (verify, none)
    CreateRoute := fun st r => (st ++ [{ r with ID := newID }], { r with ID := newID }, none)
    GetRoutes := fun st _ _ => (st.length, st, none)
    DeleteRoute := fun st id =>
      if st.any (fun r => r.ID = id) then (st.filter (fun r => r.ID ≠ id), none)
      else (st, some (.new "route not found")) }

/-- A Mailgun client whose route calls all fail. -/
def failingMailgun : Mailgun Unit :=
  { VerifyWebhookRequest := fun _ => (false, some (.new "no signature"))
    CreateRoute := fun st r => (st, { r with ID := "" }, some (.new "mailgun: 401 Unauthorized"))
    GetRoutes := fun _ _ _ => (0, [], some (.new "mailgun: 401 Unauthorized"))
    DeleteRoute := fun st _ => (st, some (.new "mailgun: 401 Unauthorized")) }

/-- A Sendgrid API that accepts every request and answers with the parse
setting `answer`. -/
def sendgridAnswering (answer : ParseSetting) : SendgridNet Unit :=
  { API := fun st _ => (st, .ok { StatusCode := 201, Body := "created" })
    UnmarshalParseSetting := fun _ => .ok (some answer) }

/-- A Sendgrid API that rejects every request. -/
def sendgridFailing : SendgridNet Unit :=
  { API := fun st _ => (st, .error (.new "sendgrid: 401 Unauthorized"))
    UnmarshalParseSetting := fun _ => .error (.new "unexpected end of JSON input") }

/-- A blacklist of one domain's address. -/
def blockSpammer : String → Bool := fun sender => sender = "spam@example.org"

/-- The envelope of the example posts from `david@example.com`. -/
def davidEnvelope : String := "\x7b\"to\":[\"rober@example.com\"],\"from\":\"david@example.com\"\x7d"

/-- The envelope of the example posts from the blacklisted sender. -/
def spamEnvelope : String := "\x7b\"to\":[\"rober@example.com\"],\"from\":\"spam@example.org\"\x7d"

/-- The environment of the example requests: `json.Unmarshal` is given on the
two envelopes the examples post and `mail.ParseAddress` on their `from`
field. -/
def exampleEnv (writeErr : Option GoError) : Env Node :=
  { html := goquery
    NewRandom := .ok "0b0fd9c5-3d2a-4a56-9a3e-6f1e3c2b7a10"
    Now := { sec := unixToInternal + 1700000100, nsec := 5 }
    writeErr := writeErr
    UnmarshalEnvelope := fun s =>
      if s = davidEnvelope then
        ({ To := ["rober@example.com"], From := "david@example.com" }, none)
      else if s = spamEnvelope then
        ({ To := ["rober@example.com"], From := "spam@example.org" }, none)
      else ({ To := [], From := "" }, some (.new "unexpected end of JSON input"))
    ParseAddress := fun s =>
      if s = "David <david@example.com>" then .ok { Name := "David", Address := "david@example.com" }
      else .error (.new "mail: no angle-addr") }

/-- A Mailgun form post to `/mg/incoming/{inboxID}/`. -/
def mailgunPost (inboxID sender html : String) : Request :=
  { form := fun k =>
      if k = "message-id" then "1234"
      else if k = "sender" then sender
      else if k = "from" then sender
      else if k = "subject" then "Hello there"
      else if k = "body-plain" then "Hello there"
      else if k = "body-html" then html
      else ""
    vars := fun k => if k = "inboxID" then inboxID else "" }

/-- A Sendgrid form post to `/sg/incoming/{inboxID}`. -/
def sendgridPost (inboxID envelope html : String) : Request :=
  { form := fun k =>
      if k = "envelope" then envelope
      else if k = "from" then "David <david@example.com>"
      else if k = "subject" then "Hello world"
      else if k = "text" then "Hola mundo!"
      else if k = "html" then html
      else ""
    vars := fun k => if k = "inboxID" then inboxID else "" }

/-- The Mailgun provider of the examples, before `Start`. -/
def exampleMailgun (verify : Bool) : MailgunMail (List Route) :=
  { websiteAddr := "", mg := stubMailgun verify "5a1b", db := none, isBlacklisted := none }

/-- The Mailgun provider of the examples after `Start`, over a store with the
inbox `17b7`. -/
def startedMailgun (verify : Bool) (saveErr : Option GoError) : MailgunMail (List Route) :=
  ((exampleMailgun verify).Start "https://burner.kiwi"
    (storeOf [exampleInbox "17b7" "bobby@example.com"] saveErr) [] blockSpammer).1

/-- A Sendgrid provider as the repository's test builds it, with the store and
the predicate set in the struct literal, over a store with the inbox `4d45`. -/
def testSendgrid (saveErr : Option GoError) : SendgridMail :=
  { websiteAddr := ""
    sg := NewSendgrid "burner.kiwi" "key"
    db := some (storeOf [exampleInbox "4d45" "rober@example.com"] saveErr)
    isBlacklisted := some blockSpammer }

/-- The effects of a handler once the sender was screened and the inbox looked
up, before the tail. -/
def Effects.afterLookup (sender id : String) : Effects :=
  { Effects.start with screened := [sender], lookups := [id] }

/-- The message `mailgunIncoming` has built when it reaches the HTML block. -/
def mailgunMessage {δ : Type} (env : Env δ) (r : Request) (i : Inbox) (mID : String) : Message :=
  { InboxID := i.ID, ID := mID, ReceivedAt := env.Now.Unix, MGID := r.form "message-id",
    Sender := r.form "sender", From := r.form "from", Subject := r.form "subject",
    BodyHTML := "", BodyPlain := r.form "body-plain", TTL := i.TTL }

/-- The message `sendgridIncoming` has built when it reaches the HTML block. -/
def sendgridMessage {δ : Type} (env : Env δ) (r : Request) (envelope : Envelope)
    (sender : MailAddress) (i : Inbox) (mID : String) : Message :=
  { InboxID := i.ID, ID := mID, ReceivedAt := env.Now.Unix, MGID := "",
    Sender := envelope.From, From := sender.Address, Subject := r.form "subject",
    BodyHTML := "", BodyPlain := r.form "text", TTL := i.TTL }

/-! ## The sweep, as the specification words it -/

/-- The instant of a `time.Time`, in nanoseconds since the Unix epoch. -/
def Time.instant (t : Time) : Int := (t.sec - unixToInternal) * 1000000000 + t.nsec

/-- The route's description parses as a decimal epoch-seconds integer and that
expiry is strictly before `now`. -/
def expiresBefore (now : Time) (r : Route) : Bool :=
  match strconv.ParseInt r.Description with
  | .ok expiry => decide (expiry * 1000000000 < now.instant)
  | .error _ => false

/-- The route's description parses as a decimal epoch-seconds integer and that
expiry is at or before `now`. -/
def expiresAtOrBefore (now : Time) (r : Route) : Bool :=
  match strconv.ParseInt r.Description with
  | .ok expiry => decide (expiry * 1000000000 ≤ now.instant)
  | .error _ => false

/-- The ids of the routes whose expiry is before the instant at which the
route is looked at, in the order of the listing; `k` is the position of the
first route. -/
def expectedDeletes (now : Nat → Time) : Nat → List Route → List String
  | _, [] => []
  | k, r :: rs =>
    (if expiresBefore (now k) r then [r.ID] else []) ++ expectedDeletes now (k + 1) rs

/-- The expiry of the route, if its description parses, is an instant that
`time.Unix` represents without overflow (below the year 292277024627). -/
def representable (r : Route) : Bool :=
  match strconv.ParseInt r.Description with
  | .ok expiry => decide (expiry + unixToInternal < 2 ^ 63)
  | .error _ => true

/-- A route as the sweep test builds it. -/
def testRoute (id description : String) : Route :=
  { Priority := 1, Description := description, Expression := "", Actions := [], CreatedAt := "1",
    ID := id }

/-! ## Anchors -/

/-- The value of the first attribute with the given key. -/
def attrVal (key : String) : List Attribute → Option String
  | [] => none
  | a :: rest => if a.Key = key then some a.Val else attrVal key rest

/-- Every `a` element among a node, what hangs below it and what comes after
it has the target `_blank`. -/
def anchorsOpenInNewTab : Node → Bool
  | .nil => true
  | .node t d attrs fc ns =>
    (if t = .ElementNode ∧ d = "a" then attrVal "target" attrs == some "_blank" else true)
      && anchorsOpenInNewTab fc && anchorsOpenInNewTab ns

/-! ## Start -/

/-- The method `MailgunMail.Start` stores the base URL, the store and the predicate, and
mounts the handler at `/mg/incoming/{inboxID}/` for POST. -/
theorem mailgun_Start_stores {σ : Type} (m : MailgunMail σ) (websiteAddr : String)
    (db : Database) (r : Router) (p : String → Bool) :
    (m.Start websiteAddr db r p).1.websiteAddr = websiteAddr ∧
    (m.Start websiteAddr db r p).1.db = some db ∧
    (m.Start websiteAddr db r p).1.isBlacklisted = some p ∧
    (m.Start websiteAddr db r p).2.1 =
      r ++ [{ path := "/mg/incoming/\x7binboxID\x7d/", handler := .mailgunIncoming,
              methods := ["POST"] }] ∧
    (m.Start websiteAddr db r p).2.2 = none :=
  ⟨rfl, rfl, rfl, rfl, rfl⟩

/-- The method `SendgridMail.Start` stores the base URL and the store and mounts the
handler at `/sg/incoming/{inboxID}` for POST; the predicate field keeps the
value it had. -/
theorem sendgrid_Start_stores (s : SendgridMail) (websiteAddr : String)
    (db : Database) (r : Router) (p : String → Bool) :
    (s.Start websiteAddr db r p).1.websiteAddr = websiteAddr ∧
    (s.Start websiteAddr db r p).1.db = some db ∧
    (s.Start websiteAddr db r p).1.isBlacklisted = s.isBlacklisted ∧
    (s.Start websiteAddr db r p).2.1 =
      r ++ [{ path := "/sg/incoming/\x7binboxID\x7d", handler := .sendgridIncoming,
              methods := ["POST"] }] ∧
    (s.Start websiteAddr db r p).2.2 = none :=
  ⟨rfl, rfl, rfl, rfl, rfl⟩

/-- C7, at the failing input: a Sendgrid provider made by `NewSendgridProvider`
and started with a predicate `p` holds the base URL and the store, but its
blacklist predicate is still nil, not `p`; a webhook whose envelope decodes
then ends in the nil call, before any response is written and before the store
is read. -/
theorem sendgrid_Start_leaves_isBlacklisted_nil (domain key websiteAddr : String)
    (db : Database) (r : Router) (p : String → Bool) :
    ((NewSendgridProvider domain key).Start websiteAddr db r p).1.isBlacklisted = none ∧
    ((NewSendgridProvider domain key).Start websiteAddr db r p).1.websiteAddr = websiteAddr ∧
    ((NewSendgridProvider domain key).Start websiteAddr db r p).1.db = some db ∧
    (((NewSendgridProvider "burner.kiwi" "key").Start "https://burner.kiwi"
        (storeOf [exampleInbox "4d45" "rober@example.com"] none) [] blockSpammer).1.sendgridIncoming
        (exampleEnv none)
        (sendgridPost "4d45" spamEnvelope ""))
      = { Effects.start with panicked := true } :=
  ⟨rfl, rfl, rfl, by decide⟩

/-! ## RegisterRoute -/

/-- The request `MailgunMail.RegisterRoute` sends after `Start`: it matches the
inbox address as recipient, forwards to the base URL followed by
`/mg/incoming/<id>/`, carries the TTL in decimal as description, and its last
action is `stop()`. -/
theorem mailgun_RegisterRoute_request {σ : Type} (m : MailgunMail σ) (websiteAddr : String)
    (db : Database) (r : Router) (p : String → Bool) (st : σ) (i : Inbox) :
    ((m.Start websiteAddr db r p).1.RegisterRoute st i).sent =
      [{ Priority := 1
         Description := strconv.Itoa i.TTL
         Expression := "match_recipient(\"" ++ i.Address ++ "\")"
         Actions := ["forward(\"" ++ (websiteAddr ++ "/mg/incoming/" ++ i.ID ++ "/") ++ "\")",
                     "store()", "stop()"]
         CreatedAt := ""
         ID := "" }] :=
  rfl

/-- The request `Sendgrid.CreateParseSetting` sends, whatever its argument: the
parse setting that is posted names the provider's domain and has an empty
URL. -/
theorem sendgrid_CreateParseSetting_request {σ : Type} (c : Sendgrid) (net : SendgridNet σ)
    (st : σ) (url : String) :
    (c.CreateParseSetting net st url).2.1 =
      { key := c.key
        endpoint := "/user/webhooks/parse/settings"
        host := c.host
        Method := "POST"
        Body := some { Hostname := c.domain, URL := "", SpamCheck := false, SendRaw := false } } := by
  unfold Sendgrid.CreateParseSetting Sendgrid.getRequest
  dsimp only
  split
  · rfl
  · split <;> rfl

/-- The one request `SendgridMail.RegisterRoute` sends is the request of
`CreateParseSetting`. -/
theorem sendgrid_RegisterRoute_request {σ : Type} (s : SendgridMail) (net : SendgridNet σ)
    (st : σ) (i : Inbox) :
    (s.RegisterRoute net st i).sent =
      [{ key := s.sg.key
         endpoint := "/user/webhooks/parse/settings"
         host := s.sg.host
         Method := "POST"
         Body := some { Hostname := s.sg.domain, URL := "", SpamCheck := false, SendRaw := false } }] := by
  have h := sendgrid_CreateParseSetting_request s.sg net st (s.routeAddr i)
  unfold SendgridMail.RegisterRoute
  generalize s.sg.CreateParseSetting net st (s.routeAddr i) = x at h
  rcases x with ⟨st1, request, err | route⟩ <;> simp only at h <;> subst h <;> rfl

/-- C8, at the failing input: for a Sendgrid provider started with the base URL
`https://burner.kiwi` and the inbox `4d45`, the address `RegisterRoute` builds
is `https://burner.kiwi/sg/incoming4d45/`, which is not the mounted webhook path
`/sg/incoming/4d45` under the base URL, and the one request sent to the
provider carries an empty URL, so no forwarding address at all. -/
theorem sendgrid_RegisterRoute_misses_webhook_url :
    ((NewSendgridProvider "burner.kiwi" "key").Start "https://burner.kiwi"
        (storeOf [] none) [] blockSpammer).1.routeAddr (exampleInbox "4d45" "rober@example.com")
      = "https://burner.kiwi/sg/incoming4d45/" ∧
    "https://burner.kiwi/sg/incoming4d45/" ≠ "https://burner.kiwi" ++ "/sg/incoming/" ++ "4d45" ∧
    (((NewSendgridProvider "burner.kiwi" "key").Start "https://burner.kiwi"
        (storeOf [] none) [] blockSpammer).1.RegisterRoute
        (sendgridAnswering { Hostname := "burner.kiwi", URL := "", SpamCheck := false,
                             SendRaw := false })
        () (exampleInbox "4d45" "rober@example.com")).sent.map (fun q => q.Body.map ParseSetting.URL)
      = [some ""] := by
  decide

/-- C9, as stated, fails for Sendgrid: the provider accepts the request and
answers with the parse setting it created, and `RegisterRoute` returns a nil
error with the empty string, which is none of the identifying fields of the
answer. -/
theorem sendgrid_RegisterRoute_returns_no_id :
    ((NewSendgridProvider "burner.kiwi" "key").RegisterRoute
        (sendgridAnswering { Hostname := "burner.kiwi", URL := "https://burner.kiwi/sg/incoming/4d45",
                             SpamCheck := false, SendRaw := false })
        () (exampleInbox "4d45" "rober@example.com")).err = none ∧
    ((NewSendgridProvider "burner.kiwi" "key").RegisterRoute
        (sendgridAnswering { Hostname := "burner.kiwi", URL := "https://burner.kiwi/sg/incoming/4d45",
                             SpamCheck := false, SendRaw := false })
        () (exampleInbox "4d45" "rober@example.com")).routeID = "" ∧
    "" ∉ ["burner.kiwi", "https://burner.kiwi/sg/incoming/4d45"] := by
  decide

/-- C9, amended: when `CreateRoute` succeeds, Mailgun's `RegisterRoute` returns
the id of the route the provider answered with and a nil error; when the
parse-setting call succeeds, Sendgrid's `RegisterRoute` returns the empty
string and a nil error; and when the call fails with an error, each provider
returns that error wrapped with its `createRoute: ...` context, so non-nil and
with the same root cause. -/
theorem RegisterRoute_result {σ τ : Type} (m : MailgunMail σ) (st : σ) (s : SendgridMail)
    (net : SendgridNet τ) (st1 : τ) (i : Inbox) :
    (∀ st2 route, m.mg.CreateRoute st (m.routeRequest i) = (st2, route, none) →
        (m.RegisterRoute st i).routeID = route.ID ∧ (m.RegisterRoute st i).err = none) ∧
    (∀ st2 route e, m.mg.CreateRoute st (m.routeRequest i) = (st2, route, some e) →
        (m.RegisterRoute st i).err
            = some (.withMessage e "createRoute: failed to create mailgun route") ∧
        (m.RegisterRoute st i).err.map GoError.Cause = some e.Cause) ∧
    (∀ st2 request setting,
        s.sg.CreateParseSetting net st1 (s.routeAddr i) = (st2, request, .ok setting) →
        (s.RegisterRoute net st1 i).routeID = "" ∧ (s.RegisterRoute net st1 i).err = none) ∧
    (∀ st2 request e,
        s.sg.CreateParseSetting net st1 (s.routeAddr i) = (st2, request, .error e) →
        (s.RegisterRoute net st1 i).err
            = some (.withMessage e "createRoute: failed to create sendgrid parse setting") ∧
        (s.RegisterRoute net st1 i).err.map GoError.Cause = some e.Cause) := by
  refine ⟨?_, ?_, ?_, ?_⟩
  · intro st2 route h
    unfold MailgunMail.RegisterRoute
    rw [h]
    exact ⟨rfl, rfl⟩
  · intro st2 route e h
    unfold MailgunMail.RegisterRoute
    rw [h]
    exact ⟨rfl, rfl⟩
  · intro st2 request setting h
    unfold SendgridMail.RegisterRoute
    rw [h]
    exact ⟨rfl, rfl⟩
  · intro st2 request e h
    unfold SendgridMail.RegisterRoute
    rw [h]
    exact ⟨rfl, rfl⟩

/-- C9, amended, at concrete calls: the stub Mailgun client assigns the id
`5a1b`, the failing clients answer with an error. -/
theorem RegisterRoute_result_witness :
    ((exampleMailgun true).RegisterRoute [] (exampleInbox "4d45" "rober@example.com")).routeID
        = "5a1b" ∧
    ((exampleMailgun true).RegisterRoute [] (exampleInbox "4d45" "rober@example.com")).err = none ∧
    (({ websiteAddr := "", mg := failingMailgun, db := none, isBlacklisted := none } :
        MailgunMail Unit).RegisterRoute () (exampleInbox "4d45" "rober@example.com")).err
      = some (.withMessage (.new "mailgun: 401 Unauthorized")
          "createRoute: failed to create mailgun route") ∧
    ((NewSendgridProvider "burner.kiwi" "key").RegisterRoute
        (sendgridAnswering { Hostname := "burner.kiwi", URL := "", SpamCheck := false,
                             SendRaw := false })
        () (exampleInbox "4d45" "rober@example.com")).routeID = "" ∧
    ((NewSendgridProvider "burner.kiwi" "key").RegisterRoute sendgridFailing ()
        (exampleInbox "4d45" "rober@example.com")).err
      = some (.withMessage
          (.withMessage (.new "sendgrid: 401 Unauthorized")
            "Sendgrid.CreateParseSetting: failed to create a parse setting")
          "createRoute: failed to create sendgrid parse setting") :=
  ⟨((RegisterRoute_result (exampleMailgun true) [] (NewSendgridProvider "burner.kiwi" "key")
        sendgridFailing () (exampleInbox "4d45" "rober@example.com")).1 _ _ rfl).1,
   ((RegisterRoute_result (exampleMailgun true) [] (NewSendgridProvider "burner.kiwi" "key")
        sendgridFailing () (exampleInbox "4d45" "rober@example.com")).1 _ _ rfl).2,
   ((RegisterRoute_result
        ({ websiteAddr := "", mg := failingMailgun, db := none, isBlacklisted := none } :
          MailgunMail Unit) () (NewSendgridProvider "burner.kiwi" "key")
        sendgridFailing () (exampleInbox "4d45" "rober@example.com")).2.1 _ _ _ rfl).1,
   ((RegisterRoute_result (exampleMailgun true) [] (NewSendgridProvider "burner.kiwi" "key")
        (sendgridAnswering { Hostname := "burner.kiwi", URL := "", SpamCheck := false,
                             SendRaw := false })
        () (exampleInbox "4d45" "rober@example.com")).2.2.1 _ _ _ rfl).1,
   ((RegisterRoute_result (exampleMailgun true) [] (NewSendgridProvider "burner.kiwi" "key")
        sendgridFailing () (exampleInbox "4d45" "rober@example.com")).2.2.2 _ _ _ rfl).1⟩

/-! ## The webhook handlers -/

/-- After `WriteHeader` the header is written. -/
theorem WriteHeader_wroteHeader (w : ResponseWriter) (code : Nat) :
    (w.WriteHeader code).wroteHeader = true := by
  unfold ResponseWriter.WriteHeader
  cases h : w.wroteHeader <;> simp [h]

/-- A second `WriteHeader` changes nothing. -/
theorem WriteHeader_twice (w : ResponseWriter) (c d : Nat) :
    (w.WriteHeader c).WriteHeader d = w.WriteHeader c := by
  have h := WriteHeader_wroteHeader w c
  generalize w.WriteHeader c = w1 at h
  simp [ResponseWriter.WriteHeader, h]

/-- The common tail of the handlers, when the HTML block succeeds with `out`
(or is skipped, for an empty body): exactly the message with that HTML is given
to the store, and the response is the one of `w.Write(id)`, whatever the store
answers. -/
theorem storeAndReply_stored {δ : Type} (name : String) (db : Database) (env : Env δ)
    (id html : String) (msg : Message) (e : Effects) (out : String)
    (hout : html = "" ∧ out = msg.BodyHTML ∨ html ≠ "" ∧ openLinksInNewTab env.html html = .ok out) :
    (storeAndReply name db env id html msg e).saved = e.saved ++ [{ msg with BodyHTML := out }] ∧
    (storeAndReply name db env id html msg e).w = (e.w.Write id env.writeErr).1 ∧
    (storeAndReply name db env id html msg e).lookups = e.lookups ∧
    (storeAndReply name db env id html msg e).screened = e.screened ∧
    (storeAndReply name db env id html msg e).rejected = e.rejected ∧
    (storeAndReply name db env id html msg e).panicked = e.panicked := by
  unfold storeAndReply
  rcases hout with ⟨h0, hm⟩ | ⟨h0, hm⟩
  · subst h0 hm
    simp only [ne_eq, not_true_eq_false, ↓reduceIte]
    cases db.SaveNewMessage msg <;> cases hw : env.writeErr <;>
      simp [ResponseWriter.Write, Effects.fail, WriteHeader_twice]
  · simp only [ne_eq, h0, not_false_eq_true, ↓reduceIte, hm]
    cases db.SaveNewMessage { msg with BodyHTML := out } <;> cases hw : env.writeErr <;>
      simp [ResponseWriter.Write, Effects.fail, WriteHeader_twice]

/-- The HTML block has an outcome `out` for the stored message: the body is
empty and `out` is empty, or the library turned the body into `out`. -/
theorem html_outcome {δ : Type} (lib : HTMLLib δ) (html : String)
    (h : html ≠ "" → ∃ out, openLinksInNewTab lib html = .ok out) :
    ∃ out, html = "" ∧ out = "" ∨ html ≠ "" ∧ openLinksInNewTab lib html = .ok out := by
  by_cases h0 : html = ""
  · exact ⟨"", Or.inl ⟨h0, rfl⟩⟩
  · obtain ⟨out, ho⟩ := h h0
    exact ⟨out, Or.inr ⟨h0, ho⟩⟩

/-- A verified Mailgun webhook from a sender that is not blacklisted, for an
inbox the store finds, with a fresh id: the handler reaches its tail with the
message built from the form. -/
theorem mailgunIncoming_reaches_store {σ δ : Type} (m : MailgunMail σ) (env : Env δ)
    (r : Request) (db : Database) (isBlacklisted : String → Bool) (i : Inbox) (mID : String)
    (hdb : m.db = some db) (hbl : m.isBlacklisted = some isBlacklisted)
    (hver : m.mg.VerifyWebhookRequest r = (true, none))
    (hsender : isBlacklisted (r.form "sender") = false)
    (hget : db.GetInboxByID (r.vars "inboxID") = .ok i)
    (hid : env.NewRandom = .ok mID) :
    m.mailgunIncoming env r =
      storeAndReply "MailgunIncoming" db env (r.vars "inboxID") (r.form "body-html")
        (mailgunMessage env r i mID) (Effects.afterLookup (r.form "sender") (r.vars "inboxID")) := by
  unfold MailgunMail.mailgunIncoming
  simp only [hver, hbl, hsender, hdb, hget, hid]
  rfl

/-- A Sendgrid webhook whose envelope decodes, from a sender that is not
blacklisted, for an inbox the store finds, with a fresh id and a `from` field
that parses: the handler reaches its tail with the message built from the
form. -/
theorem sendgridIncoming_reaches_store {δ : Type} (s : SendgridMail) (env : Env δ)
    (r : Request) (db : Database) (isBlacklisted : String → Bool) (envelope : Envelope)
    (i : Inbox) (mID : String) (sender : MailAddress)
    (hdb : s.db = some db) (hbl : s.isBlacklisted = some isBlacklisted)
    (henv : env.UnmarshalEnvelope (r.form "envelope") = (envelope, none))
    (hsender : isBlacklisted envelope.From = false)
    (hget : db.GetInboxByID (r.vars "inboxID") = .ok i)
    (hid : env.NewRandom = .ok mID)
    (hfrom : env.ParseAddress (r.form "from") = .ok sender) :
    s.sendgridIncoming env r =
      storeAndReply "SendgridIncoming" db env (r.vars "inboxID") (r.form "html")
        (sendgridMessage env r envelope sender i mID)
        (Effects.afterLookup envelope.From (r.vars "inboxID")) := by
  unfold SendgridMail.sendgridIncoming
  simp only [henv, hbl, hsender, hdb, hget, hid, hfrom]
  rfl

/-- The response after a successful `w.Write(id)` on a fresh writer. -/
theorem fresh_Write (id : String) :
    (ResponseWriter.fresh.Write id none).1 = { wroteHeader := true, status := 200, body := id } := by
  simp [ResponseWriter.Write, ResponseWriter.WriteHeader, ResponseWriter.fresh]

/-- The status after `w.Write(id)` on a fresh writer is 200, whatever the
write reports. -/
theorem fresh_Write_status (id : String) (err : Option GoError) :
    (ResponseWriter.fresh.Write id err).1.status = 200 := by
  cases err <;> simp [ResponseWriter.Write, ResponseWriter.WriteHeader, ResponseWriter.fresh]

/-- C1: a webhook with a valid payload, a sender that is not blacklisted and an
inbox id the store holds (for Mailgun with the verification passing), handled
while id generation and the response write succeed, is answered with status 200
and the inbox id of the URL path as body, and exactly one message is given to
the store: its InboxID is that id, its Sender and From are the payload's (for
Sendgrid the envelope's `from` and the address parsed out of the `from` field),
and its Subject and BodyPlain are the payload's subject and plain text. -/
theorem accepted_webhook_is_stored_and_acknowledged :
    (∀ (σ δ : Type) (m : MailgunMail σ) (env : Env δ) (r : Request) (db : Database)
        (isBlacklisted : String → Bool) (i : Inbox) (mID : String),
        m.db = some db → m.isBlacklisted = some isBlacklisted →
        m.mg.VerifyWebhookRequest r = (true, none) →
        isBlacklisted (r.form "sender") = false →
        db.GetInboxByID (r.vars "inboxID") = .ok i → i.ID = r.vars "inboxID" →
        env.NewRandom = .ok mID →
        (r.form "body-html" ≠ "" →
          ∃ out, openLinksInNewTab env.html (r.form "body-html") = .ok out) →
        env.writeErr = none →
        (m.mailgunIncoming env r).w.status = 200 ∧
        (m.mailgunIncoming env r).w.body = r.vars "inboxID" ∧
        ∃ msg, (m.mailgunIncoming env r).saved = [msg] ∧
          msg.InboxID = r.vars "inboxID" ∧ msg.Sender = r.form "sender" ∧
          msg.From = r.form "from" ∧ msg.Subject = r.form "subject" ∧
          msg.BodyPlain = r.form "body-plain") ∧
    (∀ (δ : Type) (s : SendgridMail) (env : Env δ) (r : Request) (db : Database)
        (isBlacklisted : String → Bool) (envelope : Envelope) (i : Inbox) (mID : String)
        (sender : MailAddress),
        s.db = some db → s.isBlacklisted = some isBlacklisted →
        env.UnmarshalEnvelope (r.form "envelope") = (envelope, none) →
        isBlacklisted envelope.From = false →
        db.GetInboxByID (r.vars "inboxID") = .ok i → i.ID = r.vars "inboxID" →
        env.NewRandom = .ok mID →
        env.ParseAddress (r.form "from") = .ok sender →
        (r.form "html" ≠ "" → ∃ out, openLinksInNewTab env.html (r.form "html") = .ok out) →
        env.writeErr = none →
        (s.sendgridIncoming env r).w.status = 200 ∧
        (s.sendgridIncoming env r).w.body = r.vars "inboxID" ∧
        ∃ msg, (s.sendgridIncoming env r).saved = [msg] ∧
          msg.InboxID = r.vars "inboxID" ∧ msg.Sender = envelope.From ∧
          msg.From = sender.Address ∧ msg.Subject = r.form "subject" ∧
          msg.BodyPlain = r.form "text") := by
  constructor
  · intro σ δ m env r db isBlacklisted i mID hdb hbl hver hsender hget hi hid hhtml hw
    rw [mailgunIncoming_reaches_store m env r db isBlacklisted i mID hdb hbl hver
      hsender hget hid]
    obtain ⟨out, hout⟩ := html_outcome env.html (r.form "body-html") hhtml
    obtain ⟨hs, hwr, -⟩ := storeAndReply_stored "MailgunIncoming" db env (r.vars "inboxID")
      (r.form "body-html") (mailgunMessage env r i mID)
      (Effects.afterLookup (r.form "sender") (r.vars "inboxID")) out hout
    rw [hs, hwr, hw]
    refine ⟨?_, ?_, _, rfl, hi, rfl, rfl, rfl, rfl⟩
    · exact congrArg ResponseWriter.status (fresh_Write _)
    · exact congrArg ResponseWriter.body (fresh_Write _)
  · intro δ s env r db isBlacklisted envelope i mID sender hdb hbl henv hsender hget hi hid hfrom
      hhtml hw
    rw [sendgridIncoming_reaches_store s env r db isBlacklisted envelope i mID sender
      hdb hbl henv hsender hget hid hfrom]
    obtain ⟨out, hout⟩ := html_outcome env.html (r.form "html") hhtml
    obtain ⟨hs, hwr, -⟩ := storeAndReply_stored "SendgridIncoming" db env (r.vars "inboxID")
      (r.form "html") (sendgridMessage env r envelope sender i mID)
      (Effects.afterLookup envelope.From (r.vars "inboxID")) out hout
    rw [hs, hwr, hw]
    refine ⟨?_, ?_, _, rfl, hi, rfl, rfl, rfl, rfl⟩
    · exact congrArg ResponseWriter.status (fresh_Write _)
    · exact congrArg ResponseWriter.body (fresh_Write _)

/-- C1 on the posts of the tests: the Mailgun post for the inbox `17b7` and the
Sendgrid post for the inbox `4d45`. -/
theorem accepted_webhook_is_stored_and_acknowledged_witness :
    ((startedMailgun true none).mailgunIncoming (exampleEnv none)
        (mailgunPost "17b7" "hayden@example.com" "<a href=\"https://example.com\">Hi</a>")).w.status
      = 200 ∧
    ((testSendgrid none).sendgridIncoming (exampleEnv none)
        (sendgridPost "4d45" davidEnvelope "<a href=\"https://example.com\">Hi</a>")).w.body
      = "4d45" :=
  ⟨(accepted_webhook_is_stored_and_acknowledged.1 (List Route) Node (startedMailgun true none)
      (exampleEnv none)
      (mailgunPost "17b7" "hayden@example.com" "<a href=\"https://example.com\">Hi</a>")
      (storeOf [exampleInbox "17b7" "bobby@example.com"] none) blockSpammer
      (exampleInbox "17b7" "bobby@example.com") "0b0fd9c5-3d2a-4a56-9a3e-6f1e3c2b7a10"
      rfl rfl rfl (by decide) (by decide) rfl rfl (fun _ => ⟨"<html><head></head><body><a href=\"https://example.com\" target=\"_blank\">Hi</a></body></html>", by decide⟩) rfl).1,
   (accepted_webhook_is_stored_and_acknowledged.2 Node (testSendgrid none) (exampleEnv none)
      (sendgridPost "4d45" davidEnvelope "<a href=\"https://example.com\">Hi</a>")
      (storeOf [exampleInbox "4d45" "rober@example.com"] none) blockSpammer
      { To := ["rober@example.com"], From := "david@example.com" }
      (exampleInbox "4d45" "rober@example.com") "0b0fd9c5-3d2a-4a56-9a3e-6f1e3c2b7a10"
      { Name := "David", Address := "david@example.com" }
      rfl rfl (by decide) (by decide) (by decide) rfl rfl (by decide) (fun _ => ⟨"<html><head></head><body><a href=\"https://example.com\" target=\"_blank\">Hi</a></body></html>", by decide⟩)
      rfl).2.1⟩

/-- C2, as stated, fails for Mailgun: a post whose `sender` field is
blacklisted but whose signature does not verify is answered with 401, not
406. -/
theorem blacklisted_unverified_mailgun_post_gets_401 :
    blockSpammer ((mailgunPost "17b7" "spam@example.org" "").form "sender") = true ∧
    ((startedMailgun false none).mailgunIncoming (exampleEnv none)
        (mailgunPost "17b7" "spam@example.org" "")).w.status = 401 := by
  decide

/-- C2, amended: a Mailgun webhook whose verification passes and whose `sender`
field is blacklisted, and a Sendgrid webhook whose envelope decodes and whose
envelope `from` is blacklisted, are answered with status 406 and an empty body;
no message is given to the store and the store is not read. -/
theorem blacklisted_sender_is_rejected :
    (∀ (σ δ : Type) (m : MailgunMail σ) (env : Env δ) (r : Request)
        (isBlacklisted : String → Bool),
        m.isBlacklisted = some isBlacklisted →
        m.mg.VerifyWebhookRequest r = (true, none) →
        isBlacklisted (r.form "sender") = true →
        (m.mailgunIncoming env r).w.status = 406 ∧ (m.mailgunIncoming env r).w.body = "" ∧
        (m.mailgunIncoming env r).saved = [] ∧ (m.mailgunIncoming env r).lookups = [] ∧
        (m.mailgunIncoming env r).rejected = 1 ∧ (m.mailgunIncoming env r).accepted = 0) ∧
    (∀ (δ : Type) (s : SendgridMail) (env : Env δ) (r : Request)
        (isBlacklisted : String → Bool) (envelope : Envelope),
        s.isBlacklisted = some isBlacklisted →
        env.UnmarshalEnvelope (r.form "envelope") = (envelope, none) →
        isBlacklisted envelope.From = true →
        (s.sendgridIncoming env r).w.status = 406 ∧ (s.sendgridIncoming env r).w.body = "" ∧
        (s.sendgridIncoming env r).saved = [] ∧ (s.sendgridIncoming env r).lookups = [] ∧
        (s.sendgridIncoming env r).rejected = 1 ∧ (s.sendgridIncoming env r).accepted = 0) := by
  constructor
  · intro σ δ m env r isBlacklisted hbl hver hsender
    unfold MailgunMail.mailgunIncoming
    simp only [hver, hbl, hsender]
    simp [Effects.fail, Effects.start, ResponseWriter.WriteHeader, ResponseWriter.fresh,
      StatusUnauthorized, StatusNotAcceptable, StatusInternalServerError]
  · intro δ s env r isBlacklisted envelope hbl henv hsender
    unfold SendgridMail.sendgridIncoming
    simp only [henv, hbl, hsender]
    simp [Effects.fail, Effects.start, ResponseWriter.WriteHeader, ResponseWriter.fresh,
      StatusUnauthorized, StatusNotAcceptable, StatusInternalServerError]

/-- C2, amended, on the posts of the tests with the blacklisted sender. -/
theorem blacklisted_sender_is_rejected_witness :
    ((startedMailgun true none).mailgunIncoming (exampleEnv none)
        (mailgunPost "17b7" "spam@example.org" "")).w.status = 406 ∧
    ((testSendgrid none).sendgridIncoming (exampleEnv none)
        (sendgridPost "4d45" spamEnvelope "")).saved = [] :=
  ⟨(blacklisted_sender_is_rejected.1 (List Route) Node (startedMailgun true none)
      (exampleEnv none) (mailgunPost "17b7" "spam@example.org" "") blockSpammer
      rfl rfl (by decide)).1,
   (blacklisted_sender_is_rejected.2 Node (testSendgrid none) (exampleEnv none)
      (sendgridPost "4d45" spamEnvelope "") blockSpammer
      { To := ["rober@example.com"], From := "spam@example.org" }
      rfl (by decide) (by decide)).2.2.1⟩

/-- C3: for a request that reaches the persist step (verified, sender not
blacklisted, inbox found, id generated, fields and HTML processed), the
response does not depend on what `SaveNewMessage` answers: it is the response
of the same request against a store that answers `save` instead, its status is
200, and when the response write succeeds its body is the inbox id. So a store
that fails gets the response of a store that succeeds. -/
theorem save_failure_keeps_the_acknowledgement :
    (∀ (σ δ : Type) (m : MailgunMail σ) (env : Env δ) (r : Request) (db : Database)
        (isBlacklisted : String → Bool) (i : Inbox) (mID : String)
        (save : Message → Option GoError),
        m.db = some db → m.isBlacklisted = some isBlacklisted →
        m.mg.VerifyWebhookRequest r = (true, none) →
        isBlacklisted (r.form "sender") = false →
        db.GetInboxByID (r.vars "inboxID") = .ok i →
        env.NewRandom = .ok mID →
        (r.form "body-html" ≠ "" →
          ∃ out, openLinksInNewTab env.html (r.form "body-html") = .ok out) →
        (m.mailgunIncoming env r).w.status = 200 ∧
        (env.writeErr = none → (m.mailgunIncoming env r).w.body = r.vars "inboxID") ∧
        (m.mailgunIncoming env r).w =
          (MailgunMail.mailgunIncoming
            { m with db := some { db with SaveNewMessage := save } } env r).w) ∧
    (∀ (δ : Type) (s : SendgridMail) (env : Env δ) (r : Request) (db : Database)
        (isBlacklisted : String → Bool) (envelope : Envelope) (i : Inbox) (mID : String)
        (sender : MailAddress) (save : Message → Option GoError),
        s.db = some db → s.isBlacklisted = some isBlacklisted →
        env.UnmarshalEnvelope (r.form "envelope") = (envelope, none) →
        isBlacklisted envelope.From = false →
        db.GetInboxByID (r.vars "inboxID") = .ok i →
        env.NewRandom = .ok mID →
        env.ParseAddress (r.form "from") = .ok sender →
        (r.form "html" ≠ "" → ∃ out, openLinksInNewTab env.html (r.form "html") = .ok out) →
        (s.sendgridIncoming env r).w.status = 200 ∧
        (env.writeErr = none → (s.sendgridIncoming env r).w.body = r.vars "inboxID") ∧
        (s.sendgridIncoming env r).w =
          (SendgridMail.sendgridIncoming
            { s with db := some { db with SaveNewMessage := save } } env r).w) := by
  constructor
  · intro σ δ m env r db isBlacklisted i mID save hdb hbl hver hsender hget hid hhtml
    rw [mailgunIncoming_reaches_store m env r db isBlacklisted i mID hdb hbl hver
      hsender hget hid]
    rw [mailgunIncoming_reaches_store
      { m with db := some { db with SaveNewMessage := save } } env r
      { db with SaveNewMessage := save } isBlacklisted i mID rfl hbl hver hsender hget hid]
    obtain ⟨out, hout⟩ := html_outcome env.html (r.form "body-html") hhtml
    obtain ⟨-, hwr, -⟩ := storeAndReply_stored "MailgunIncoming" db env (r.vars "inboxID")
      (r.form "body-html") (mailgunMessage env r i mID)
      (Effects.afterLookup (r.form "sender") (r.vars "inboxID")) out hout
    obtain ⟨-, hwr2, -⟩ := storeAndReply_stored "MailgunIncoming"
      { db with SaveNewMessage := save } env (r.vars "inboxID")
      (r.form "body-html") (mailgunMessage env r i mID)
      (Effects.afterLookup (r.form "sender") (r.vars "inboxID")) out hout
    rw [hwr, hwr2]
    refine ⟨fresh_Write_status _ _, ?_, rfl⟩
    intro hw
    rw [hw]
    exact congrArg ResponseWriter.body (fresh_Write _)
  · intro δ s env r db isBlacklisted envelope i mID sender save hdb hbl henv hsender hget hid
      hfrom hhtml
    rw [sendgridIncoming_reaches_store s env r db isBlacklisted envelope i mID sender
      hdb hbl henv hsender hget hid hfrom]
    rw [sendgridIncoming_reaches_store
      { s with db := some { db with SaveNewMessage := save } } env r
      { db with SaveNewMessage := save } isBlacklisted envelope i mID sender rfl hbl henv hsender
      hget hid hfrom]
    obtain ⟨out, hout⟩ := html_outcome env.html (r.form "html") hhtml
    obtain ⟨-, hwr, -⟩ := storeAndReply_stored "SendgridIncoming" db env (r.vars "inboxID")
      (r.form "html") (sendgridMessage env r envelope sender i mID)
      (Effects.afterLookup envelope.From (r.vars "inboxID")) out hout
    obtain ⟨-, hwr2, -⟩ := storeAndReply_stored "SendgridIncoming"
      { db with SaveNewMessage := save } env (r.vars "inboxID")
      (r.form "html") (sendgridMessage env r envelope sender i mID)
      (Effects.afterLookup envelope.From (r.vars "inboxID")) out hout
    rw [hwr, hwr2]
    refine ⟨fresh_Write_status _ _, ?_, rfl⟩
    intro hw
    rw [hw]
    exact congrArg ResponseWriter.body (fresh_Write _)

/-- C3 on the posts of the tests, against a store whose `SaveNewMessage`
fails: the response is the one of a store that saves. -/
theorem save_failure_keeps_the_acknowledgement_witness :
    ((startedMailgun true (some (.new "disk full"))).mailgunIncoming (exampleEnv none)
        (mailgunPost "17b7" "hayden@example.com" "")).w
      = ((startedMailgun true none).mailgunIncoming (exampleEnv none)
        (mailgunPost "17b7" "hayden@example.com" "")).w ∧
    ((testSendgrid (some (.new "disk full"))).sendgridIncoming (exampleEnv none)
        (sendgridPost "4d45" davidEnvelope "")).w.status = 200 :=
  ⟨(save_failure_keeps_the_acknowledgement.1 (List Route) Node
      (startedMailgun true (some (.new "disk full"))) (exampleEnv none)
      (mailgunPost "17b7" "hayden@example.com" "")
      (storeOf [exampleInbox "17b7" "bobby@example.com"] (some (.new "disk full"))) blockSpammer
      (exampleInbox "17b7" "bobby@example.com") "0b0fd9c5-3d2a-4a56-9a3e-6f1e3c2b7a10"
      (fun _ => none)
      rfl rfl rfl (by decide) (by decide) rfl (fun h => absurd rfl h)).2.2,
   (save_failure_keeps_the_acknowledgement.2 Node (testSendgrid (some (.new "disk full")))
      (exampleEnv none) (sendgridPost "4d45" davidEnvelope "")
      (storeOf [exampleInbox "4d45" "rober@example.com"] (some (.new "disk full"))) blockSpammer
      { To := ["rober@example.com"], From := "david@example.com" }
      (exampleInbox "4d45" "rober@example.com") "0b0fd9c5-3d2a-4a56-9a3e-6f1e3c2b7a10"
      { Name := "David", Address := "david@example.com" } (fun _ => none)
      rfl rfl (by decide) (by decide) (by decide) rfl (by decide) (fun h => absurd rfl h)).1⟩

/-- C4: when `VerifyWebhookRequest` returns an error or false, `mailgunIncoming`
answers 401 with an empty body and does nothing else: the blacklist predicate
is not asked, the store is neither read nor written, and no counter moves. -/
theorem unverified_mailgun_webhook_gets_401 {σ δ : Type} (m : MailgunMail σ) (env : Env δ)
    (r : Request)
    (hver : (m.mg.VerifyWebhookRequest r).2 ≠ none ∨ (m.mg.VerifyWebhookRequest r).1 = false) :
    (m.mailgunIncoming env r).w.status = 401 ∧ (m.mailgunIncoming env r).w.body = "" ∧
    (m.mailgunIncoming env r).screened = [] ∧ (m.mailgunIncoming env r).lookups = [] ∧
    (m.mailgunIncoming env r).saved = [] ∧ (m.mailgunIncoming env r).accepted = 0 ∧
    (m.mailgunIncoming env r).rejected = 0 ∧ (m.mailgunIncoming env r).panicked = false := by
  unfold MailgunMail.mailgunIncoming
  rcases hv : m.mg.VerifyWebhookRequest r with ⟨ver, _ | err⟩
  · rw [hv] at hver
    have hfalse : ver = false := by simpa using hver
    subst hfalse
    simp [Effects.fail, Effects.start, ResponseWriter.WriteHeader, ResponseWriter.fresh,
      StatusUnauthorized, StatusNotAcceptable, StatusInternalServerError]
  · simp [Effects.fail, Effects.start, ResponseWriter.WriteHeader, ResponseWriter.fresh,
      StatusUnauthorized, StatusNotAcceptable, StatusInternalServerError]

/-- C4 on a post with a blacklisted sender and an unknown inbox, when the
signature does not verify. -/
theorem unverified_mailgun_webhook_gets_401_witness :
    ((startedMailgun false none).mailgunIncoming (exampleEnv none)
        (mailgunPost "no-such-inbox" "spam@example.org" "")).w.status = 401 ∧
    ((startedMailgun false none).mailgunIncoming (exampleEnv none)
        (mailgunPost "no-such-inbox" "spam@example.org" "")).screened = [] :=
  ⟨(unverified_mailgun_webhook_gets_401 (startedMailgun false none) (exampleEnv none)
      (mailgunPost "no-such-inbox" "spam@example.org" "") (Or.inr rfl)).1,
   (unverified_mailgun_webhook_gets_401 (startedMailgun false none) (exampleEnv none)
      (mailgunPost "no-such-inbox" "spam@example.org" "") (Or.inr rfl)).2.2.1⟩

/-- C5: when `GetInboxByID` returns an error for the inbox id of the URL path
(for a verified Mailgun webhook, or a Sendgrid webhook whose envelope decodes,
from a sender that is not blacklisted), the handler answers 500 with an empty
body and gives no message to the store. -/
theorem unknown_inbox_gets_500 :
    (∀ (σ δ : Type) (m : MailgunMail σ) (env : Env δ) (r : Request) (db : Database)
        (isBlacklisted : String → Bool) (err : GoError),
        m.db = some db → m.isBlacklisted = some isBlacklisted →
        m.mg.VerifyWebhookRequest r = (true, none) →
        isBlacklisted (r.form "sender") = false →
        db.GetInboxByID (r.vars "inboxID") = .error err →
        (m.mailgunIncoming env r).w.status = 500 ∧ (m.mailgunIncoming env r).w.body = "" ∧
        (m.mailgunIncoming env r).saved = [] ∧ (m.mailgunIncoming env r).accepted = 0) ∧
    (∀ (δ : Type) (s : SendgridMail) (env : Env δ) (r : Request) (db : Database)
        (isBlacklisted : String → Bool) (envelope : Envelope) (err : GoError),
        s.db = some db → s.isBlacklisted = some isBlacklisted →
        env.UnmarshalEnvelope (r.form "envelope") = (envelope, none) →
        isBlacklisted envelope.From = false →
        db.GetInboxByID (r.vars "inboxID") = .error err →
        (s.sendgridIncoming env r).w.status = 500 ∧ (s.sendgridIncoming env r).w.body = "" ∧
        (s.sendgridIncoming env r).saved = [] ∧ (s.sendgridIncoming env r).accepted = 0) := by
  constructor
  · intro σ δ m env r db isBlacklisted err hdb hbl hver hsender hget
    unfold MailgunMail.mailgunIncoming
    simp only [hver, hbl, hsender, hdb, hget]
    simp [Effects.fail, Effects.start, ResponseWriter.WriteHeader, ResponseWriter.fresh,
      StatusUnauthorized, StatusNotAcceptable, StatusInternalServerError]
  · intro δ s env r db isBlacklisted envelope err hdb hbl henv hsender hget
    unfold SendgridMail.sendgridIncoming
    simp only [henv, hbl, hsender, hdb, hget]
    simp [Effects.fail, Effects.start, ResponseWriter.WriteHeader, ResponseWriter.fresh,
      StatusUnauthorized, StatusNotAcceptable, StatusInternalServerError]

/-- C5 on the posts of the tests, for an inbox id the store does not hold. -/
theorem unknown_inbox_gets_500_witness :
    ((startedMailgun true none).mailgunIncoming (exampleEnv none)
        (mailgunPost "no-such-inbox" "hayden@example.com" "")).w.status = 500 ∧
    ((testSendgrid none).sendgridIncoming (exampleEnv none)
        (sendgridPost "no-such-inbox" davidEnvelope "")).saved = [] :=
  ⟨(unknown_inbox_gets_500.1 (List Route) Node (startedMailgun true none) (exampleEnv none)
      (mailgunPost "no-such-inbox" "hayden@example.com" "")
      (storeOf [exampleInbox "17b7" "bobby@example.com"] none) blockSpammer
      (.new "failed to find inbox") rfl rfl rfl (by decide) (by decide)).1,
   (unknown_inbox_gets_500.2 Node (testSendgrid none) (exampleEnv none)
      (sendgridPost "no-such-inbox" davidEnvelope "")
      (storeOf [exampleInbox "4d45" "rober@example.com"] none) blockSpammer
      { To := ["rober@example.com"], From := "david@example.com" }
      (.new "failed to find inbox") rfl rfl (by decide) (by decide) (by decide)).2.2.1⟩

/-! ## The sweep -/

/-- A value `strconv.ParseInt` returns is at least `-2^63`. -/
theorem ParseInt_ge (s : String) (t : Int) (h : strconv.ParseInt s = .ok t) :
    -(2 ^ 63 : Int) ≤ t := by
  unfold strconv.ParseInt at h
  split at h
  · cases h
  · dsimp only at h
    split at h
    · cases h
    · split at h
      · cases h
      · split at h
        · cases h
        · rename_i un _ h1 h2
          injection h with h
          subst h
          split
          · rename_i hneg
            simp only [hneg, true_and, not_lt] at h2
            have : (un : Int) ≤ 2 ^ 63 := by exact_mod_cast h2
            omega
          · have : (0 : Int) ≤ un := Int.ofNat_nonneg un
            omega

/-- Where `time.Unix` does not overflow, `time.Unix(t, 0).Before(now)` says that
the second `t` is strictly before the instant `now`. -/
theorem Before_iff (t : Int) (now : Time) (hn : now.nsec < 1000000000)
    (hlo : -(2 ^ 63 : Int) ≤ t) (hhi : t + unixToInternal < 2 ^ 63) :
    (time.Unix t).Before now = decide (t * 1000000000 < now.instant) := by
  have hw : wrapInt64 (t + unixToInternal) = t + unixToInternal := by
    unfold wrapInt64 unixToInternal at *
    omega
  unfold Time.Before time.Unix Time.instant
  simp only [hw]
  have hn' : ((now.nsec : Nat) : Int) < 1000000000 := by exact_mod_cast hn
  have hn0 : (0 : Int) ≤ (now.nsec : Int) := Int.ofNat_nonneg _
  rw [Bool.eq_iff_iff]
  simp only [Bool.or_eq_true, Bool.and_eq_true, decide_eq_true_eq]
  unfold unixToInternal at *
  constructor
  · rintro (h | ⟨h1, h2⟩)
    · omega
    · have : (0 : Int) < now.nsec := by exact_mod_cast h2
      omega
  · intro h
    by_cases h1 : t + 62135596800 < now.sec
    · exact Or.inl h1
    · right
      refine ⟨by omega, ?_⟩
      have : (0 : Int) < (now.nsec : Int) := by omega
      exact_mod_cast this

/-- The loop of the sweep calls `DeleteRoute` for exactly the routes whose
expiry is before the instant at which they are looked at, whatever the calls
answer. -/
theorem deleteExpiredLoop_deleted {σ : Type} (mg : Mailgun σ) (now : Nat → Time)
    (hclock : ∀ k, (now k).nsec < 1000000000) (rs : List Route) :
    ∀ (k : Nat) (acc : Swept σ), (∀ r ∈ rs, representable r = true) →
      (deleteExpiredLoop mg now k rs acc).deleted = acc.deleted ++ expectedDeletes now k rs := by
  induction rs with
  | nil => intro k acc _; simp [deleteExpiredLoop, expectedDeletes]
  | cons r rs ih =>
    intro k acc hrep
    have hr : representable r = true := hrep r (List.mem_cons_self _ _)
    have hrs : ∀ x ∈ rs, representable x = true := fun x hx => hrep x (List.mem_cons_of_mem _ hx)
    unfold deleteExpiredLoop expectedDeletes expiresBefore
    unfold representable at hr
    cases hp : strconv.ParseInt r.Description with
    | error e =>
      simp only [Bool.false_eq_true, ↓reduceIte, List.nil_append]
      rw [ih _ _ hrs]
    | ok t =>
      rw [hp] at hr
      have hhi : t + unixToInternal < 2 ^ 63 := by simpa using hr
      have hb := Before_iff t (now k) (hclock k) (ParseInt_ge _ _ hp) hhi
      simp only [hb]
      by_cases hlt : t * 1000000000 < (now k).instant
      · simp only [hlt, decide_True, ↓reduceIte]
        rcases hd : mg.DeleteRoute acc.provider r.ID with ⟨st1, _ | err⟩
        · simp only
          rw [ih _ _ hrs]
          simp
        · simp only
          rw [ih _ _ hrs]
          simp
      · simp only [hlt, decide_False, Bool.false_eq_true, ↓reduceIte, List.nil_append]
        rw [ih _ _ hrs]

/-- C6, as stated, fails: a route whose expiry is the very instant `now` has
an expiry at or before `now`, and the sweep does not delete it. -/
theorem route_expiring_now_is_kept :
    expiresAtOrBefore (time.Unix 1700000000) (testRoute "1234" "1700000000") = true ∧
    (MailgunMail.DeleteExpiredRoutes (exampleMailgun true) [testRoute "1234" "1700000000"]
        (fun _ => time.Unix 1700000000)).1.deleted = [] ∧
    (MailgunMail.DeleteExpiredRoutes (exampleMailgun true) [testRoute "1234" "1700000000"]
        (fun _ => time.Unix 1700000000)).1.provider = [testRoute "1234" "1700000000"] := by
  decide

/-- Outside the instants `time.Unix` represents the addition wraps around: a
route that expires in the second `2^63 - 1` is deleted in 2023. -/
theorem far_future_expiry_wraps :
    representable (testRoute "far" "9223372036854775807") = false ∧
    (MailgunMail.DeleteExpiredRoutes (exampleMailgun true)
        [testRoute "far" "9223372036854775807"]
        (fun _ => time.Unix 1700000000)).1.deleted = ["far"] := by
  decide

/-- C6, amended: for every list of routes the listing call returns and every
clock, one run of Mailgun's `DeleteExpiredRoutes` returns nil and calls
`DeleteRoute` for a route exactly when its description parses as a decimal
epoch-seconds integer and that expiry is strictly before the instant at which
the route is looked at (for expiries `time.Unix` represents). The ids come in
listing order. With one instant `t0` for the whole run the ids are those of the
routes that expire before `t0`; and a failed deletion changes nothing for the
other routes, since every client that lists these routes, whatever its
`DeleteRoute` answers, is called with the same ids. -/
theorem sweep_deletes_routes_expired_before_now {σ : Type} (m : MailgunMail σ) (st : σ)
    (now : Nat → Time) (n : Int) (rs : List Route)
    (hlist : m.mg.GetRoutes st 1000 0 = (n, rs, none))
    (hclock : ∀ k, (now k).nsec < 1000000000)
    (hrep : ∀ r ∈ rs, representable r = true) :
    (m.DeleteExpiredRoutes st now).2 = none ∧
    (m.DeleteExpiredRoutes st now).1.deleted = expectedDeletes now 0 rs ∧
    (∀ t0, (∀ k, now k = t0) →
      (m.DeleteExpiredRoutes st now).1.deleted = (rs.filter (expiresBefore t0)).map Route.ID) ∧
    (∀ (τ : Type) (m1 : MailgunMail τ) (st1 : τ) (n1 : Int),
      m1.mg.GetRoutes st1 1000 0 = (n1, rs, none) →
      (m1.DeleteExpiredRoutes st1 now).1.deleted = (m.DeleteExpiredRoutes st now).1.deleted) := by
  have hany : ∀ (τ : Type) (m1 : MailgunMail τ) (st1 : τ) (n1 : Int),
      m1.mg.GetRoutes st1 1000 0 = (n1, rs, none) →
      (m1.DeleteExpiredRoutes st1 now).1.deleted = expectedDeletes now 0 rs := by
    intro τ m1 st1 n1 h1
    unfold MailgunMail.DeleteExpiredRoutes
    rw [h1]
    simp only
    rw [deleteExpiredLoop_deleted m1.mg now hclock rs 0 _ hrep]
    rfl
  have hdel := hany σ m st n hlist
  refine ⟨?_, hdel, ?_, fun τ m1 st1 n1 h1 => (hany τ m1 st1 n1 h1).trans hdel.symm⟩
  · unfold MailgunMail.DeleteExpiredRoutes
    rw [hlist]
  · intro t0 ht0
    rw [hdel]
    have hgen : ∀ (l : List Route) (k : Nat),
        expectedDeletes now k l = (l.filter (expiresBefore t0)).map Route.ID := by
      intro l
      induction l with
      | nil => intro k; rfl
      | cons r l ih =>
        intro k
        unfold expectedDeletes
        rw [ih (k + 1), ht0 k]
        by_cases h : expiresBefore t0 r = true
        · simp [h, List.filter_cons]
        · simp [h, List.filter_cons]
    exact hgen rs 0

/-- C6, amended, on the routes of the sweep test with a malformed one added, at
the instant 1700000000.5: the two expired routes are deleted, also after the
malformed one, and the route that expires in 2037 stays. -/
theorem sweep_deletes_routes_expired_before_now_witness :
    (MailgunMail.DeleteExpiredRoutes (exampleMailgun true)
        [testRoute "1234" "1", testRoute "bad" "soon", testRoute "91011" "1699999999",
         testRoute "5678" "2124941352"]
        (fun _ => { sec := unixToInternal + 1700000000, nsec := 500000000 })).1.deleted
      = ["1234", "91011"] :=
  ((sweep_deletes_routes_expired_before_now (exampleMailgun true)
      [testRoute "1234" "1", testRoute "bad" "soon", testRoute "91011" "1699999999",
       testRoute "5678" "2124941352"]
      (fun _ => { sec := unixToInternal + 1700000000, nsec := 500000000 }) 4
      [testRoute "1234" "1", testRoute "bad" "soon", testRoute "91011" "1699999999",
       testRoute "5678" "2124941352"]
      rfl (fun _ => (by decide : (500000000 : Nat) < 1000000000)) (by decide)).2.1).trans (by decide)

/-! ## The stored HTML -/

/-- After `SetAttr(key, val)` the first attribute with that key has the
value. -/
theorem attrVal_setAttr (key val : String) (attrs : List Attribute) :
    attrVal key (setAttr key val attrs) = some val := by
  induction attrs with
  | nil => simp [setAttr, attrVal]
  | cons a rest ih =>
    unfold setAttr
    by_cases h : a.Key = key
    · simp [h, attrVal]
    · simp [h, attrVal, ih]

/-- After the loop over `Find("a")` every `a` element has the target
`_blank`. -/
theorem anchorsOpenInNewTab_setAttrOnTag (n : Node) :
    anchorsOpenInNewTab (setAttrOnTag "a" "target" "_blank" n) = true := by
  induction n with
  | nil => rfl
  | node t d attrs fc ns ihc ihs =>
    unfold setAttrOnTag anchorsOpenInNewTab
    rw [ihc, ihs]
    by_cases h : t = .ElementNode ∧ d = "a"
    · simp [h, attrVal_setAttr]
    · simp [h]

/-- C10, as stated, fails: for the body `<a href="https://example.com">Hi</a>`
the handler stores the serialisation of a whole document, with the `html`,
`head` and `body` elements the parser builds, not the anchor alone. -/
theorem stored_html_is_a_whole_document :
    ((startedMailgun true none).mailgunIncoming (exampleEnv none)
        (mailgunPost "17b7" "hayden@example.com"
          "<a href=\"https://example.com\">Hi</a>")).saved.map Message.BodyHTML
      = ["<html><head></head><body><a href=\"https://example.com\" target=\"_blank\">Hi</a></body></html>"] ∧
    "<html><head></head><body><a href=\"https://example.com\" target=\"_blank\">Hi</a></body></html>"
      ≠ "<a href=\"https://example.com\" target=\"_blank\">Hi</a>" := by
  decide

/-- C10, amended: for every accepted request the one stored message has an
empty BodyHTML when the payload's HTML body is empty, and otherwise the string
the HTML block produces: the body parsed as an HTML document, the target of
every `a` element set to `_blank`, and the document serialised back. After the
rewrite every `a` element has the target `_blank`, and the parser builds the
`html`, `head` and `body` elements that the body lacks: the body
`<a href="https://example.com">Hi</a>` is stored as
`<html><head></head><body><a href="https://example.com" target="_blank">Hi</a></body></html>`,
and the body of the repository's test as the string that test expects. -/
theorem stored_html_opens_links_in_new_tab :
    (∀ (σ δ : Type) (m : MailgunMail σ) (env : Env δ) (r : Request) (db : Database)
        (isBlacklisted : String → Bool) (i : Inbox) (mID : String),
        m.db = some db → m.isBlacklisted = some isBlacklisted →
        m.mg.VerifyWebhookRequest r = (true, none) →
        isBlacklisted (r.form "sender") = false →
        db.GetInboxByID (r.vars "inboxID") = .ok i →
        env.NewRandom = .ok mID →
        (r.form "body-html" = "" →
          (m.mailgunIncoming env r).saved.map Message.BodyHTML = [""]) ∧
        (∀ doc out, r.form "body-html" ≠ "" →
          env.html.NewDocumentFromReader (r.form "body-html") = .ok doc →
          env.html.Html (env.html.FindEachSetAttr doc "a" "target" "_blank") = .ok out →
          (m.mailgunIncoming env r).saved.map Message.BodyHTML = [out])) ∧
    (∀ (δ : Type) (s : SendgridMail) (env : Env δ) (r : Request) (db : Database)
        (isBlacklisted : String → Bool) (envelope : Envelope) (i : Inbox) (mID : String)
        (sender : MailAddress),
        s.db = some db → s.isBlacklisted = some isBlacklisted →
        env.UnmarshalEnvelope (r.form "envelope") = (envelope, none) →
        isBlacklisted envelope.From = false →
        db.GetInboxByID (r.vars "inboxID") = .ok i →
        env.NewRandom = .ok mID →
        env.ParseAddress (r.form "from") = .ok sender →
        (r.form "html" = "" →
          (s.sendgridIncoming env r).saved.map Message.BodyHTML = [""]) ∧
        (∀ doc out, r.form "html" ≠ "" →
          env.html.NewDocumentFromReader (r.form "html") = .ok doc →
          env.html.Html (env.html.FindEachSetAttr doc "a" "target" "_blank") = .ok out →
          (s.sendgridIncoming env r).saved.map Message.BodyHTML = [out])) ∧
    (∀ t d attrs fc ns,
        goquery.FindEachSetAttr (.node t d attrs fc ns) "a" "target" "_blank"
          = .node t d attrs (setAttrOnTag "a" "target" "_blank" fc) ns ∧
        anchorsOpenInNewTab (setAttrOnTag "a" "target" "_blank" fc) = true) ∧
    openLinksInNewTab goquery "<a href=\"https://example.com\">Hi</a>"
      = .ok "<html><head></head><body><a href=\"https://example.com\" target=\"_blank\">Hi</a></body></html>" ∧
    openLinksInNewTab goquery
        "<html><body><a href=\"https://example.com\">Hola Mundo!</a></body></html>"
      = .ok "<html><head></head><body><a href=\"https://example.com\" target=\"_blank\">Hola Mundo!</a></body></html>" := by
  refine ⟨?_, ?_, ?_, by decide, by decide⟩
  · intro σ δ m env r db isBlacklisted i mID hdb hbl hver hsender hget hid
    rw [mailgunIncoming_reaches_store m env r db isBlacklisted i mID hdb hbl hver
      hsender hget hid]
    constructor
    · intro h0
      rw [(storeAndReply_stored "MailgunIncoming" db env (r.vars "inboxID") (r.form "body-html")
        (mailgunMessage env r i mID) (Effects.afterLookup (r.form "sender") (r.vars "inboxID"))
        "" (Or.inl ⟨h0, rfl⟩)).1]
      rfl
    · intro doc out h0 hdoc hout
      have ho : openLinksInNewTab env.html (r.form "body-html") = .ok out := by
        unfold openLinksInNewTab
        rw [hdoc]
        simp only [hout]
      rw [(storeAndReply_stored "MailgunIncoming" db env (r.vars "inboxID") (r.form "body-html")
        (mailgunMessage env r i mID) (Effects.afterLookup (r.form "sender") (r.vars "inboxID"))
        out (Or.inr ⟨h0, ho⟩)).1]
      rfl
  · intro δ s env r db isBlacklisted envelope i mID sender hdb hbl henv hsender hget hid hfrom
    rw [sendgridIncoming_reaches_store s env r db isBlacklisted envelope i mID sender
      hdb hbl henv hsender hget hid hfrom]
    constructor
    · intro h0
      rw [(storeAndReply_stored "SendgridIncoming" db env (r.vars "inboxID") (r.form "html")
        (sendgridMessage env r envelope sender i mID)
        (Effects.afterLookup envelope.From (r.vars "inboxID")) "" (Or.inl ⟨h0, rfl⟩)).1]
      rfl
    · intro doc out h0 hdoc hout
      have ho : openLinksInNewTab env.html (r.form "html") = .ok out := by
        unfold openLinksInNewTab
        rw [hdoc]
        simp only [hout]
      rw [(storeAndReply_stored "SendgridIncoming" db env (r.vars "inboxID") (r.form "html")
        (sendgridMessage env r envelope sender i mID)
        (Effects.afterLookup envelope.From (r.vars "inboxID")) out (Or.inr ⟨h0, ho⟩)).1]
      rfl
  · intro t d attrs fc ns
    exact ⟨rfl, anchorsOpenInNewTab_setAttrOnTag fc⟩

/-- C10, amended, on a Mailgun post without HTML and on the Sendgrid post of
the repository's test. -/
theorem stored_html_opens_links_in_new_tab_witness :
    ((startedMailgun true none).mailgunIncoming (exampleEnv none)
        (mailgunPost "17b7" "hayden@example.com" "")).saved.map Message.BodyHTML = [""] ∧
    ((testSendgrid none).sendgridIncoming (exampleEnv none)
        (sendgridPost "4d45" davidEnvelope
          "<html><body><a href=\"https://example.com\">Hola Mundo!</a></body></html>")).saved.map
        Message.BodyHTML
      = ["<html><head></head><body><a href=\"https://example.com\" target=\"_blank\">Hola Mundo!</a></body></html>"] :=
  ⟨(stored_html_opens_links_in_new_tab.1 (List Route) Node (startedMailgun true none)
      (exampleEnv none) (mailgunPost "17b7" "hayden@example.com" "")
      (storeOf [exampleInbox "17b7" "bobby@example.com"] none) blockSpammer
      (exampleInbox "17b7" "bobby@example.com") "0b0fd9c5-3d2a-4a56-9a3e-6f1e3c2b7a10"
      rfl rfl rfl (by decide) (by decide) rfl).1 rfl,
   (stored_html_opens_links_in_new_tab.2.1 Node (testSendgrid none) (exampleEnv none)
      (sendgridPost "4d45" davidEnvelope
        "<html><body><a href=\"https://example.com\">Hola Mundo!</a></body></html>")
      (storeOf [exampleInbox "4d45" "rober@example.com"] none) blockSpammer
      { To := ["rober@example.com"], From := "david@example.com" }
      (exampleInbox "4d45" "rober@example.com") "0b0fd9c5-3d2a-4a56-9a3e-6f1e3c2b7a10"
      { Name := "David", Address := "david@example.com" }
      rfl rfl (by decide) (by decide) (by decide) rfl (by decide)).2
      ((parseModelled
        "<html><body><a href=\"https://example.com\">Hola Mundo!</a></body></html>").getD .nil)
      "<html><head></head><body><a href=\"https://example.com\" target=\"_blank\">Hola Mundo!</a></body></html>"
      (by decide) (by decide) (by decide)⟩

end BurnerKiwi
